import Mathlib

/-!
# Enduro simulation of the Baja vehicle (`simulacao.c`)

A shallow embedding of the single C source file of the repository and the
properties of its natural-language specification.

Modelling conventions.

* The `float` and `double` fields of `BajaVehicle` are rationals.  The functions
  of the section "The functions of the source" compute on them in exact
  arithmetic.  The section "Machine arithmetic" gives `runLap`,
  `applyPeriodicPenalty` and the loop body with the rounding of `float` and
  `double`; the two agree on multiples of `1/2` of magnitude at most `2^22`
  (`loopBodyFloat_eq`), and every value that the program computes from
  `initializeBaja` is one (`loopBodyFloat_eq_on_run`).  Off that range they
  differ (`roundFloat_umDecimo`).  Infinities and NaN are not part of the model.
* The `int` fields and variables are integers; a C truth value is "different
  from `0`".
* Standard output is the list of the lines printed, one constructor of `Line`
  for each `printf` format string of the source; a number printed by a format
  is carried as the number itself.
* A `void f(BajaVehicle *carro)` that mutates and prints is a function from the
  vehicle to the new vehicle and the lines printed.
-/

namespace Baja

/-! ## Constants (`#define`s, lines 5–21) -/

def NUMERO_TOTAL_DE_VOLTAS : Int := 100
def SUSPENSAO_INICIAL : ℚ := 100
def COMBUSTIVEL_INICIAL : ℚ := 100
def TEMPERATURA_INICIAL_MOTOR : ℚ := 80

def DESGASTE_SUSPENSAO_POR_VOLTA : ℚ := 2
def CONSUMO_COMBUSTIVEL_POR_VOLTA : ℚ := 3 / 2
def AUMENTO_TEMP_MOTOR_POR_VOLTA : ℚ := 1

def PENALIDADE_SUSPENSAO : ℚ := 3
def PENALIDADE_TEMPERATURA_MOTOR : ℚ := 5
def INTERVALO_PENALIDADE : Int := 10

def LIMITE_ALERTA_SUSPENSAO : ℚ := 20
def LIMITE_ALERTA_MOTOR : ℚ := 115

def INTERVALO_RELATORIO : Int := 20

/-! ## Data model -/

/-- The vehicle record (lines 25–32). -/
structure BajaVehicle where
  suspensao : ℚ
  combustivel : ℚ
  motor_temp : ℚ
  alerta_suspensao_emitido : Int
  alerta_motor_emitido : Int
deriving DecidableEq, Repr

/-- The lines the program can print, one constructor for each `printf` format
string; the source line of the `printf` is given with each. -/
inductive Line where
  /-- Line 50: `### INÍCIO DA SIMULAÇÃO DE ENDURO - EQUIPE IMPERADOR UTFPR ###`. -/
  | inicioDaSimulacao
  /-- Line 51: `Condições Iniciais:`. -/
  | condicoesIniciais
  /-- Line 63: `>>> Penalidade aplicada na volta %d! <<<`. -/
  | penalidadeAplicada (volta : Int)
  /-- Line 117: `!!! ALERTA: Nível da suspensão crítico (%.1f%%)!!!`. -/
  | alertaSuspensao (valor : ℚ)
  /-- Line 121: `!!! ALERTA: Temperatura do motor excessiva (%.1f°C)!!!`. -/
  | alertaMotor (valor : ℚ)
  /-- Line 128: `--- RELATÓRIO DA VOLTA %d ---`. -/
  | relatorioDaVolta (volta : Int)
  /-- Lines 129 and 133: `=================================`. -/
  | separador
  /-- Line 130: `Suspensão....: %.2f%%`. -/
  | linhaSuspensao (valor : ℚ)
  /-- Line 131: `Combustível..: %.2f%%`. -/
  | linhaCombustivel (valor : ℚ)
  /-- Line 132: `Motor........: %.2f°C`. -/
  | linhaMotor (valor : ℚ)
  /-- Lines 138 and 140: the row of `#`. -/
  | cerquilhas
  /-- Line 139: `### FIM DA SIMULAÇÃO ###`. -/
  | fimDaSimulacao
  /-- Line 143: `CORRIDA CONCLUÍDA COM SUCESSO!`. -/
  | corridaConcluida
  /-- Line 144: `O veículo completou as %d voltas.`. -/
  | completouAsVoltas (voltas : Int)
  /-- Line 146: `FALHA CRÍTICA NA VOLTA %d!`. -/
  | falhaCritica (volta : Int)
  /-- Line 148: `Motivo: Falha total da suspensão.`. -/
  | motivoSuspensao
  /-- Line 150: `Motivo: Combustível esgotado.`. -/
  | motivoCombustivel
  /-- Line 154: `--- ESTADO FINAL DO VEÍCULO ---`. -/
  | estadoFinal
deriving DecidableEq, Repr

/-! ## The functions of the source -/

/-- `initializeBaja` (lines 93–99): the vehicle at the start of the race. -/
def initializeBaja : BajaVehicle :=
  { suspensao := SUSPENSAO_INICIAL
    combustivel := COMBUSTIVEL_INICIAL
    motor_temp := TEMPERATURA_INICIAL_MOTOR
    alerta_suspensao_emitido := 0
    alerta_motor_emitido := 0 }

/-- `runLap` (lines 102–106): wear and consumption of one lap, in exact
arithmetic; `runLapFloat` is the same function with the rounding of the
machine. -/
def runLap (carro : BajaVehicle) : BajaVehicle :=
  { carro with
    suspensao := carro.suspensao - DESGASTE_SUSPENSAO_POR_VOLTA
    combustivel := carro.combustivel - CONSUMO_COMBUSTIVEL_POR_VOLTA
    motor_temp := carro.motor_temp + AUMENTO_TEMP_MOTOR_POR_VOLTA }

/-- `applyPeriodicPenalty` (lines 109–112), in exact arithmetic;
`applyPeriodicPenaltyFloat` is the same function with the rounding of the
machine. -/
def applyPeriodicPenalty (carro : BajaVehicle) : BajaVehicle :=
  { carro with
    suspensao := carro.suspensao - PENALIDADE_SUSPENSAO
    motor_temp := carro.motor_temp + PENALIDADE_TEMPERATURA_MOTOR }

/-- The first `if` of `checkSystemAlerts` (lines 116–119). -/
def checkSuspensionAlert (carro : BajaVehicle) : BajaVehicle × List Line :=
  if carro.suspensao < LIMITE_ALERTA_SUSPENSAO ∧ carro.alerta_suspensao_emitido = 0 then
    ({ carro with alerta_suspensao_emitido := 1 }, [Line.alertaSuspensao carro.suspensao])
  else
    (carro, [])

/-- The second `if` of `checkSystemAlerts` (lines 120–123). -/
def checkEngineAlert (carro : BajaVehicle) : BajaVehicle × List Line :=
  if carro.motor_temp > LIMITE_ALERTA_MOTOR ∧ carro.alerta_motor_emitido = 0 then
    ({ carro with alerta_motor_emitido := 1 }, [Line.alertaMotor carro.motor_temp])
  else
    (carro, [])

/-- `checkSystemAlerts` (lines 115–124): the two checks in sequence. -/
def checkSystemAlerts (carro : BajaVehicle) : BajaVehicle × List Line :=
  let r1 := checkSuspensionAlert carro
  let r2 := checkEngineAlert r1.1
  (r2.1, r1.2 ++ r2.2)

/-- `printStatusReport` (lines 127–134): the lines it prints.  The vehicle is
behind a pointer to `const`; `printStatusReportBody` runs the body statement by
statement on the vehicle and the output. -/
def printStatusReport (carro : BajaVehicle) (volta : Int) : List Line :=
  [ Line.relatorioDaVolta volta,
    Line.separador,
    Line.linhaSuspensao (if carro.suspensao > 0 then carro.suspensao else 0),
    Line.linhaCombustivel (if carro.combustivel > 0 then carro.combustivel else 0),
    Line.linhaMotor carro.motor_temp,
    Line.separador ]

/-- The lines of `printFinalReport` that depend on `corrida_concluida`
(lines 142–152). -/
def printOutcome (carro : BajaVehicle) (volta_final : Int) (corrida_concluida : Int) :
    List Line :=
  if corrida_concluida ≠ 0 then
    [Line.corridaConcluida, Line.completouAsVoltas NUMERO_TOTAL_DE_VOLTAS]
  else
    Line.falhaCritica volta_final ::
      (if carro.suspensao ≤ 0 then [Line.motivoSuspensao]
       else if carro.combustivel ≤ 0 then [Line.motivoCombustivel]
       else [])

/-- `printFinalReport` (lines 137–156). -/
def printFinalReport (carro : BajaVehicle) (volta_final : Int) (corrida_concluida : Int) :
    List Line :=
  [Line.cerquilhas, Line.fimDaSimulacao, Line.cerquilhas]
    ++ printOutcome carro volta_final corrida_concluida
    ++ [Line.estadoFinal]
    ++ printStatusReport carro volta_final

/-- What one pass through the body of the `for` loop leaves behind. -/
structure Iteration where
  /-- The vehicle after the pass. -/
  carro : BajaVehicle
  /-- The lines printed during the pass. -/
  saida : List Line
  /-- The variable `corrida_concluida` after the pass: `0` exactly when the pass
  ended in `break`. -/
  corrida_concluida : Int
deriving DecidableEq, Repr

/-- The wear of a lap and the penalty when it is due (lines 57–64). -/
def wearAndPenalty (carro : BajaVehicle) (volta : Int) : BajaVehicle × List Line :=
  let carro := runLap carro
  if volta % INTERVALO_PENALIDADE = 0 then
    (applyPeriodicPenalty carro, [Line.penalidadeAplicada volta])
  else
    (carro, [])

/-- The part of the body of the `for` loop that comes before the failure check
(lines 56–72): wear, penalty when due, alerts, periodic report. -/
def lapUpdate (carro : BajaVehicle) (volta : Int) : BajaVehicle × List Line :=
  let r1 := wearAndPenalty carro volta
  let r2 := checkSystemAlerts r1.1
  let relatorio :=
    if volta % INTERVALO_RELATORIO = 0 then printStatusReport r2.1 volta else []
  (r2.1, r1.2 ++ r2.2 ++ relatorio)

/-- The body of the `for` loop of `main` (lines 56–79), entered with
`corrida_concluida = 1`: `lapUpdate`, then the failure check of lines 75–79. -/
def loopBody (carro : BajaVehicle) (volta : Int) : Iteration :=
  let r := lapUpdate carro volta
  if r.1.suspensao ≤ 0 ∨ r.1.combustivel ≤ 0 then
    { carro := r.1
      saida := r.2 ++ printFinalReport r.1 volta 0
      corrida_concluida := 0 }
  else
    { carro := r.1
      saida := r.2
      corrida_concluida := 1 }

/-- The control of the `for` loop of `main` (lines 55 and 75–80) around a loop
body `corpo`, from the iteration `volta` on: the loop stops when the body has
left `corrida_concluida = 0` (the `break` of line 78) or when `volta` has passed
`NUMERO_TOTAL_DE_VOLTAS`; the lines printed accumulate in order. -/
def forLoopOver (corpo : BajaVehicle → Int → Iteration) (carro : BajaVehicle)
    (volta : Int) : Iteration :=
  if volta ≤ NUMERO_TOTAL_DE_VOLTAS then
    let it := corpo carro volta
    if it.corrida_concluida = 0 then
      it
    else
      let rest := forLoopOver corpo it.carro (volta + 1)
      { rest with saida := it.saida ++ rest.saida }
  else
    { carro := carro, saida := [], corrida_concluida := 1 }
termination_by (NUMERO_TOTAL_DE_VOLTAS + 1 - volta).toNat
decreasing_by
  simp only [NUMERO_TOTAL_DE_VOLTAS] at *
  omega

/-- The `for` loop of `main` (lines 55–80) from the iteration `volta` on. -/
def forLoop (carro : BajaVehicle) (volta : Int) : Iteration :=
  forLoopOver loopBody carro volta

/-- The body of `main` after `initializeBaja` (lines 50–87), for the vehicle
`carro` in place of `carro_imperador`. -/
def simulate (carro : BajaVehicle) : List Line :=
  let inicio := [Line.inicioDaSimulacao, Line.condicoesIniciais] ++ printStatusReport carro 0
  let r := forLoop carro 1
  let fim :=
    if r.corrida_concluida ≠ 0 then
      printFinalReport r.carro NUMERO_TOTAL_DE_VOLTAS r.corrida_concluida
    else []
  inicio ++ r.saida ++ fim

/-- `main` (lines 44–88): the output of the program. -/
def main : List Line :=
  simulate initializeBaja

/-! ## Machine arithmetic

The functions above compute with exact rationals.  The functions of this section
are the same functions with the rounding of the machine: a `float` operation
rounds the exact result to 24 significant bits and a `double` operation to 53,
to the nearest value and to the even one on a tie (IEEE 754, the default of C).
The exponent range is left unbounded: the program only adds or subtracts 1, 1.5,
2, 3 and 5, which cannot overflow, and a sum or difference of two machine numbers
that falls in the subnormal range is exact. -/

/-- The integer nearest to `q`; of the two nearest ones the even one when `q`
lies half way between them. -/
def roundHalfEven (q : ℚ) : Int :=
  if q - ⌊q⌋ < 1 / 2 then ⌊q⌋
  else if 1 / 2 < q - ⌊q⌋ then ⌊q⌋ + 1
  else if ⌊q⌋ % 2 = 0 then ⌊q⌋
  else ⌊q⌋ + 1

/-- The exponent of the unit in the last place of `q ≠ 0` at a precision of `p`
bits: with `2 ^ e ≤ |q| < 2 ^ (e + 1)` it is `e - (p - 1)`. -/
def ulpExponent (p : Nat) (q : ℚ) : Int :=
  Int.log 2 |q| - ((p : Int) - 1)

/-- The binary floating-point number of precision `p` bits nearest to `q`, ties to
even. -/
def roundToPrecision (p : Nat) (q : ℚ) : ℚ :=
  if q = 0 then 0
  else (roundHalfEven (q / 2 ^ ulpExponent p q) : ℚ) * 2 ^ ulpExponent p q

/-- Rounding to `float` (binary32, 24 significant bits). -/
def roundFloat (q : ℚ) : ℚ :=
  roundToPrecision 24 q

/-- Rounding to `double` (binary64, 53 significant bits). -/
def roundDouble (q : ℚ) : ℚ :=
  roundToPrecision 53 q

/-- `runLap` (lines 102–106) with the rounding of the machine: `suspensao` and
`combustivel` are `float` and the constants are `float`, so lines 103 and 104
are `float` operations; `motor_temp` is `double`, so line 105 is a `double`
operation. -/
def runLapFloat (carro : BajaVehicle) : BajaVehicle :=
  { carro with
    suspensao := roundFloat (carro.suspensao - DESGASTE_SUSPENSAO_POR_VOLTA)
    combustivel := roundFloat (carro.combustivel - CONSUMO_COMBUSTIVEL_POR_VOLTA)
    motor_temp := roundDouble (carro.motor_temp + AUMENTO_TEMP_MOTOR_POR_VOLTA) }

/-- `applyPeriodicPenalty` (lines 109–112) with the rounding of the machine. -/
def applyPeriodicPenaltyFloat (carro : BajaVehicle) : BajaVehicle :=
  { carro with
    suspensao := roundFloat (carro.suspensao - PENALIDADE_SUSPENSAO)
    motor_temp := roundDouble (carro.motor_temp + PENALIDADE_TEMPERATURA_MOTOR) }

/-- Lines 57–64 with the rounding of the machine. -/
def wearAndPenaltyFloat (carro : BajaVehicle) (volta : Int) : BajaVehicle × List Line :=
  let carro := runLapFloat carro
  if volta % INTERVALO_PENALIDADE = 0 then
    (applyPeriodicPenaltyFloat carro, [Line.penalidadeAplicada volta])
  else
    (carro, [])

/-- Lines 56–72 with the rounding of the machine. -/
def lapUpdateFloat (carro : BajaVehicle) (volta : Int) : BajaVehicle × List Line :=
  let r1 := wearAndPenaltyFloat carro volta
  let r2 := checkSystemAlerts r1.1
  let relatorio :=
    if volta % INTERVALO_RELATORIO = 0 then printStatusReport r2.1 volta else []
  (r2.1, r1.2 ++ r2.2 ++ relatorio)

/-- The body of the `for` loop (lines 56–79) with the rounding of the machine. -/
def loopBodyFloat (carro : BajaVehicle) (volta : Int) : Iteration :=
  let r := lapUpdateFloat carro volta
  if r.1.suspensao ≤ 0 ∨ r.1.combustivel ≤ 0 then
    { carro := r.1
      saida := r.2 ++ printFinalReport r.1 volta 0
      corrida_concluida := 0 }
  else
    { carro := r.1
      saida := r.2
      corrida_concluida := 1 }

/-- A value on which the operations of the program do not round: a multiple of
`1/2` of magnitude at most `2 ^ 22`. -/
def isExactHalf (q : ℚ) : Prop :=
  (2 * q).den = 1 ∧ |q| ≤ 2 ^ 22

instance (q : ℚ) : Decidable (isExactHalf q) := by
  unfold isExactHalf
  infer_instance

/-- The `float` nearest to `0.1`, which is `13421773 / 2 ^ 27`. -/
def umDecimo : ℚ :=
  13421773 / 134217728

/-- A vehicle whose suspension and fuel are the `float` written `0.1f`; used as a
concrete input. -/
def carroUmDecimo : BajaVehicle :=
  { suspensao := umDecimo
    combustivel := umDecimo
    motor_temp := 80
    alerta_suspensao_emitido := 0
    alerta_motor_emitido := 0 }

/-! ## `printStatusReport` statement by statement -/

/-- What a function of the source that receives the pointer `carro` can act on:
the vehicle behind the pointer and the standard output. -/
structure Estado where
  carro : BajaVehicle
  saida : List Line
deriving DecidableEq, Repr

/-- A `printf` statement: the line is added at the end of the output. -/
def printf (linha : Line) (e : Estado) : Estado :=
  { e with saida := e.saida ++ [linha] }

/-- The body of `printStatusReport` (lines 128–133), one step for each statement,
each argument read from the vehicle in the state the statement finds. -/
def printStatusReportBody (volta : Int) (e : Estado) : Estado :=
  let e := printf (Line.relatorioDaVolta volta) e
  let e := printf Line.separador e
  let e := printf
    (Line.linhaSuspensao (if e.carro.suspensao > 0 then e.carro.suspensao else 0)) e
  let e := printf
    (Line.linhaCombustivel (if e.carro.combustivel > 0 then e.carro.combustivel else 0)) e
  let e := printf (Line.linhaMotor e.carro.motor_temp) e
  printf Line.separador e

/-! ## Notions used to state the properties -/

/-- The three operations of the source that mutate the vehicle. -/
inductive Op where
  | runLap
  | applyPeriodicPenalty
  | checkSystemAlerts
deriving DecidableEq, Repr

/-- The vehicle after one mutating operation. -/
def Op.apply : Op → BajaVehicle → BajaVehicle
  | Op.runLap, carro => Baja.runLap carro
  | Op.applyPeriodicPenalty, carro => Baja.applyPeriodicPenalty carro
  | Op.checkSystemAlerts, carro => (Baja.checkSystemAlerts carro).1

/-- The vehicle after a sequence of mutating operations, first to last. -/
def applyOps (ops : List Op) (carro : BajaVehicle) : BajaVehicle :=
  ops.foldl (fun c op => op.apply c) carro

/-- The failure check of line 75. -/
def failureCheck (carro : BajaVehicle) : Prop :=
  carro.suspensao ≤ 0 ∨ carro.combustivel ≤ 0

instance (carro : BajaVehicle) : Decidable (failureCheck carro) := by
  unfold failureCheck
  infer_instance

/-- The vehicle after the laps `1, …, n` have gone through `lapUpdate`, the
failure check left aside. -/
def afterLaps (carro : BajaVehicle) : Nat → BajaVehicle
  | 0 => carro
  | n + 1 => (lapUpdate (afterLaps carro n) ((n : Int) + 1)).1

/-- The lines that `lapUpdate` prints on the laps `1, …, n`, in order. -/
def lapsOutput (carro : BajaVehicle) : Nat → List Line
  | 0 => []
  | n + 1 => lapsOutput carro n ++ (lapUpdate (afterLaps carro n) ((n : Int) + 1)).2

/-- The vehicle after `wearAndPenalty` alone has been applied on the laps
`1, …, n`: no alerts, no reports, no failure check. -/
def wearLaps (carro : BajaVehicle) : Nat → BajaVehicle
  | 0 => carro
  | n + 1 => (wearAndPenalty (wearLaps carro n) ((n : Int) + 1)).1

/-- Whether a line is the suspension alert of line 117. -/
def isAlertaSuspensao : Line → Bool
  | Line.alertaSuspensao _ => true
  | _ => false

/-- Whether a line is the engine-temperature alert of line 121. -/
def isAlertaMotor : Line → Bool
  | Line.alertaMotor _ => true
  | _ => false

/-- A vehicle two points of suspension away from failure, with no alert printed
yet; used as a concrete input. -/
def carroQuaseSemSuspensao : BajaVehicle :=
  { suspensao := 2
    combustivel := 60
    motor_temp := 100
    alerta_suspensao_emitido := 0
    alerta_motor_emitido := 0 }

/-- Whether a line is one of the two alerts. -/
def isAlerta (linha : Line) : Bool :=
  isAlertaSuspensao linha || isAlertaMotor linha

/-- Whether a line is one of the two reason lines of a failure (lines 148
and 150). -/
def isMotivo : Line → Bool
  | Line.motivoSuspensao => true
  | Line.motivoCombustivel => true
  | _ => false

/-! ## Properties -/

/-! ### Frame lemmas for `checkSystemAlerts` -/

theorem checkSystemAlerts_suspensao (carro : BajaVehicle) :
    (checkSystemAlerts carro).1.suspensao = carro.suspensao := by
  simp only [checkSystemAlerts, checkEngineAlert, checkSuspensionAlert]
  split_ifs <;> rfl

theorem checkSystemAlerts_combustivel (carro : BajaVehicle) :
    (checkSystemAlerts carro).1.combustivel = carro.combustivel := by
  simp only [checkSystemAlerts, checkEngineAlert, checkSuspensionAlert]
  split_ifs <;> rfl

theorem checkSystemAlerts_motor_temp (carro : BajaVehicle) :
    (checkSystemAlerts carro).1.motor_temp = carro.motor_temp := by
  simp only [checkSystemAlerts, checkEngineAlert, checkSuspensionAlert]
  split_ifs <;> rfl

theorem penalidade_not_mem_checkSystemAlerts (carro : BajaVehicle) (n : Int) :
    Line.penalidadeAplicada n ∉ (checkSystemAlerts carro).2 := by
  simp only [checkSystemAlerts, checkEngineAlert, checkSuspensionAlert]
  split_ifs <;> simp

theorem penalidade_not_mem_printStatusReport (carro : BajaVehicle) (n volta : Int) :
    Line.penalidadeAplicada n ∉ printStatusReport carro volta := by
  simp [printStatusReport]

theorem penalidade_not_mem_printFinalReport (carro : BajaVehicle) (n volta cc : Int) :
    Line.penalidadeAplicada n ∉ printFinalReport carro volta cc := by
  unfold printFinalReport printOutcome printStatusReport
  split_ifs <;> simp

theorem loopBody_carro (carro : BajaVehicle) (volta : Int) :
    (loopBody carro volta).carro = (lapUpdate carro volta).1 := by
  simp only [loopBody]
  split_ifs <;> rfl

theorem loopBody_saida (carro : BajaVehicle) (volta : Int) :
    (loopBody carro volta).saida =
      (lapUpdate carro volta).2 ++
        (if failureCheck (lapUpdate carro volta).1 then
          printFinalReport (lapUpdate carro volta).1 volta 0 else []) := by
  simp only [loopBody, failureCheck]
  split_ifs <;> simp

theorem loopBody_corrida_concluida (carro : BajaVehicle) (volta : Int) :
    (loopBody carro volta).corrida_concluida =
      if failureCheck (lapUpdate carro volta).1 then 0 else 1 := by
  simp only [loopBody, failureCheck]
  split_ifs <;> rfl

theorem lapUpdate_carro (carro : BajaVehicle) (volta : Int) :
    (lapUpdate carro volta).1 = (checkSystemAlerts (wearAndPenalty carro volta).1).1 := rfl

/-- One pass through the loop body in exact arithmetic: the penalty notice is
printed exactly when the lap number is a multiple of 10; on such a lap the
suspension ends 3 below and the engine temperature 5 above what `runLap` alone
gives, on every other lap they end at what `runLap` alone gives, and the fuel
falls by 1.5 in both cases. -/
theorem loopBody_penalty_exact (carro : BajaVehicle) (n : Int) :
    (Line.penalidadeAplicada n ∈ (loopBody carro n).saida ↔ (10 : Int) ∣ n) ∧
    ((10 : Int) ∣ n →
      (loopBody carro n).carro.suspensao = (runLap carro).suspensao - 3 ∧
      (loopBody carro n).carro.motor_temp = (runLap carro).motor_temp + 5) ∧
    (¬ (10 : Int) ∣ n →
      (loopBody carro n).carro.suspensao = (runLap carro).suspensao ∧
      (loopBody carro n).carro.motor_temp = (runLap carro).motor_temp) ∧
    (runLap carro).suspensao = carro.suspensao - 2 ∧
    (runLap carro).motor_temp = carro.motor_temp + 1 ∧
    (loopBody carro n).carro.combustivel = carro.combustivel - 3 / 2 := by
  have hdvd : (10 : Int) ∣ n ↔ n % INTERVALO_PENALIDADE = 0 := by
    unfold INTERVALO_PENALIDADE
    omega
  have hA := penalidade_not_mem_checkSystemAlerts
  have hS := penalidade_not_mem_printStatusReport
  have hF := penalidade_not_mem_printFinalReport
  refine ⟨?_, ?_, ?_, rfl, rfl, ?_⟩
  · rw [hdvd, loopBody_saida]
    simp only [lapUpdate, wearAndPenalty]
    split_ifs <;> simp_all
  · intro h
    rw [hdvd] at h
    rw [loopBody_carro, lapUpdate_carro, checkSystemAlerts_suspensao,
      checkSystemAlerts_motor_temp]
    simp [wearAndPenalty, h, applyPeriodicPenalty, PENALIDADE_SUSPENSAO,
      PENALIDADE_TEMPERATURA_MOTOR]
  · intro h
    rw [hdvd] at h
    rw [loopBody_carro, lapUpdate_carro, checkSystemAlerts_suspensao,
      checkSystemAlerts_motor_temp]
    simp [wearAndPenalty, h]
  · rw [loopBody_carro, lapUpdate_carro, checkSystemAlerts_combustivel]
    unfold wearAndPenalty
    split_ifs <;>
      simp [applyPeriodicPenalty, runLap, CONSUMO_COMBUSTIVEL_POR_VOLTA]

/-! ### Closed form of repeated `runLap` -/

theorem runLap_iterate (carro : BajaVehicle) (n : Nat) :
    runLap^[n] carro =
      { carro with
        suspensao := carro.suspensao - 2 * n
        combustivel := carro.combustivel - 3 / 2 * n
        motor_temp := carro.motor_temp + n } := by
  induction n with
  | zero => simp
  | succ k ih =>
    rw [Function.iterate_succ_apply', ih]
    simp only [runLap, DESGASTE_SUSPENSAO_POR_VOLTA, CONSUMO_COMBUSTIVEL_POR_VOLTA,
      AUMENTO_TEMP_MOTOR_POR_VOLTA, BajaVehicle.mk.injEq, and_true]
    push_cast
    refine ⟨?_, ?_, ?_⟩ <;> ring

/-- C2: for every `n` in `1..100`, `runLap` applied `n` times to the vehicle of
`initializeBaja` gives suspension `100 - 2n`, fuel `100 - 1.5n`, engine
temperature `80 + n`, and both alert flags still `0`. -/
theorem runLap_iterate_initializeBaja (n : Nat) (_h1 : 1 ≤ n) (_h100 : n ≤ 100) :
    runLap^[n] initializeBaja =
      { suspensao := 100 - 2 * n
        combustivel := 100 - 3 / 2 * n
        motor_temp := 80 + n
        alerta_suspensao_emitido := 0
        alerta_motor_emitido := 0 } := by
  rw [runLap_iterate]
  rfl

/-- Witness of C2 at `n = 100`. -/
theorem runLap_iterate_initializeBaja_witness :
    1 ≤ 100 ∧ 100 ≤ 100 ∧
    runLap^[100] initializeBaja =
      { suspensao := 100 - 2 * (100 : Nat)
        combustivel := 100 - 3 / 2 * (100 : Nat)
        motor_temp := 80 + (100 : Nat)
        alerta_suspensao_emitido := 0
        alerta_motor_emitido := 0 } :=
  ⟨by decide, by decide, runLap_iterate_initializeBaja 100 (by decide) (by decide)⟩

/-! ### The alert flags are never cleared -/

theorem checkSystemAlerts_flag_suspensao (carro : BajaVehicle)
    (h : carro.alerta_suspensao_emitido ≠ 0) :
    (checkSystemAlerts carro).1.alerta_suspensao_emitido ≠ 0 := by
  simp only [checkSystemAlerts, checkEngineAlert, checkSuspensionAlert]
  split_ifs <;> simp_all

theorem checkSystemAlerts_flag_motor (carro : BajaVehicle)
    (h : carro.alerta_motor_emitido ≠ 0) :
    (checkSystemAlerts carro).1.alerta_motor_emitido ≠ 0 := by
  simp only [checkSystemAlerts, checkEngineAlert, checkSuspensionAlert]
  split_ifs <;> simp_all

theorem Op.apply_flag_suspensao (op : Op) (carro : BajaVehicle)
    (h : carro.alerta_suspensao_emitido ≠ 0) :
    (op.apply carro).alerta_suspensao_emitido ≠ 0 := by
  cases op
  · exact h
  · exact h
  · exact checkSystemAlerts_flag_suspensao carro h

theorem Op.apply_flag_motor (op : Op) (carro : BajaVehicle)
    (h : carro.alerta_motor_emitido ≠ 0) :
    (op.apply carro).alerta_motor_emitido ≠ 0 := by
  cases op
  · exact h
  · exact h
  · exact checkSystemAlerts_flag_motor carro h

theorem applyOps_flag_suspensao (ops : List Op) (carro : BajaVehicle)
    (h : carro.alerta_suspensao_emitido ≠ 0) :
    (applyOps ops carro).alerta_suspensao_emitido ≠ 0 := by
  induction ops generalizing carro with
  | nil => exact h
  | cons op rest ih => exact ih (op.apply carro) (Op.apply_flag_suspensao op carro h)

theorem applyOps_flag_motor (ops : List Op) (carro : BajaVehicle)
    (h : carro.alerta_motor_emitido ≠ 0) :
    (applyOps ops carro).alerta_motor_emitido ≠ 0 := by
  induction ops generalizing carro with
  | nil => exact h
  | cons op rest ih => exact ih (op.apply carro) (Op.apply_flag_motor op carro h)

theorem applyOps_append (ops later : List Op) (carro : BajaVehicle) :
    applyOps (ops ++ later) carro = applyOps later (applyOps ops carro) := by
  simp [applyOps, List.foldl_append]

theorem wearAndPenalty_flag_suspensao (carro : BajaVehicle) (volta : Int) :
    (wearAndPenalty carro volta).1.alerta_suspensao_emitido =
      carro.alerta_suspensao_emitido := by
  simp only [wearAndPenalty]
  split_ifs <;> rfl

theorem wearAndPenalty_flag_motor (carro : BajaVehicle) (volta : Int) :
    (wearAndPenalty carro volta).1.alerta_motor_emitido = carro.alerta_motor_emitido := by
  simp only [wearAndPenalty]
  split_ifs <;> rfl

theorem lapUpdate_flag_suspensao (carro : BajaVehicle) (volta : Int)
    (h : carro.alerta_suspensao_emitido ≠ 0) :
    (lapUpdate carro volta).1.alerta_suspensao_emitido ≠ 0 := by
  rw [lapUpdate_carro]
  apply checkSystemAlerts_flag_suspensao
  rwa [wearAndPenalty_flag_suspensao]

theorem lapUpdate_flag_motor (carro : BajaVehicle) (volta : Int)
    (h : carro.alerta_motor_emitido ≠ 0) :
    (lapUpdate carro volta).1.alerta_motor_emitido ≠ 0 := by
  rw [lapUpdate_carro]
  apply checkSystemAlerts_flag_motor
  rwa [wearAndPenalty_flag_motor]

/-- One unfolding of the `for` loop. -/
theorem forLoop_eq (carro : BajaVehicle) (volta : Int) :
    forLoop carro volta =
      if volta ≤ NUMERO_TOTAL_DE_VOLTAS then
        if (loopBody carro volta).corrida_concluida = 0 then loopBody carro volta
        else
          { forLoop (loopBody carro volta).carro (volta + 1) with
            saida := (loopBody carro volta).saida
              ++ (forLoop (loopBody carro volta).carro (volta + 1)).saida }
      else { carro := carro, saida := [], corrida_concluida := 1 } := by
  unfold forLoop
  conv_lhs => rw [forLoopOver]

/-- Induction along the iterations of the `for` loop: a property of the loop
started at `volta` follows from the property of the loop started at `volta + 1`. -/
theorem forLoop_induction (P : BajaVehicle → Int → Prop)
    (step : ∀ carro volta, (volta ≤ NUMERO_TOTAL_DE_VOLTAS →
      ∀ c, P c (volta + 1)) → P carro volta)
    (carro : BajaVehicle) (volta : Int) : P carro volta := by
  generalize hd : (NUMERO_TOTAL_DE_VOLTAS + 1 - volta).toNat = d
  induction d generalizing carro volta with
  | zero =>
    apply step
    intro hv
    simp only [NUMERO_TOTAL_DE_VOLTAS] at hd hv
    omega
  | succ k ih =>
    apply step
    intro _ c
    apply ih
    simp only [NUMERO_TOTAL_DE_VOLTAS] at hd ⊢
    omega

theorem forLoop_flag_suspensao (carro : BajaVehicle) (volta : Int)
    (h : carro.alerta_suspensao_emitido ≠ 0) :
    (forLoop carro volta).carro.alerta_suspensao_emitido ≠ 0 := by
  revert h
  refine forLoop_induction
    (fun c v => c.alerta_suspensao_emitido ≠ 0 →
      (forLoop c v).carro.alerta_suspensao_emitido ≠ 0) ?_ carro volta
  intro c v ih h
  rw [forLoop_eq]
  have hb : (loopBody c v).carro.alerta_suspensao_emitido ≠ 0 := by
    rw [loopBody_carro]
    exact lapUpdate_flag_suspensao c v h
  split_ifs with hv hcc
  · exact hb
  · exact ih hv _ hb
  · exact h

theorem forLoop_flag_motor (carro : BajaVehicle) (volta : Int)
    (h : carro.alerta_motor_emitido ≠ 0) :
    (forLoop carro volta).carro.alerta_motor_emitido ≠ 0 := by
  revert h
  refine forLoop_induction
    (fun c v => c.alerta_motor_emitido ≠ 0 →
      (forLoop c v).carro.alerta_motor_emitido ≠ 0) ?_ carro volta
  intro c v ih h
  rw [forLoop_eq]
  have hb : (loopBody c v).carro.alerta_motor_emitido ≠ 0 := by
    rw [loopBody_carro]
    exact lapUpdate_flag_motor c v h
  split_ifs with hv hcc
  · exact hb
  · exact ih hv _ hb
  · exact h

theorem afterLaps_flag_suspensao (carro : BajaVehicle) (m n : Nat) (hmn : m ≤ n)
    (h : (afterLaps carro m).alerta_suspensao_emitido ≠ 0) :
    (afterLaps carro n).alerta_suspensao_emitido ≠ 0 := by
  induction n, hmn using Nat.le_induction with
  | base => exact h
  | succ k _ ih => exact lapUpdate_flag_suspensao _ _ ih

theorem afterLaps_flag_motor (carro : BajaVehicle) (m n : Nat) (hmn : m ≤ n)
    (h : (afterLaps carro m).alerta_motor_emitido ≠ 0) :
    (afterLaps carro n).alerta_motor_emitido ≠ 0 := by
  induction n, hmn using Nat.le_induction with
  | base => exact h
  | succ k _ ih => exact lapUpdate_flag_motor _ _ ih

/-- C3: the alert flags latch.  None of `runLap`, `applyPeriodicPenalty` and
`checkSystemAlerts` turns a flag that is true (non-zero) back to false; hence
after any sequence of these operations a flag that is true stays true however the
sequence is continued; in particular along the run a flag that is true after lap
`m` is true after every later lap `n`, and a flag that is true when the `for`
loop is entered is true in the vehicle the loop leaves. -/
theorem alert_flags_latch :
    (∀ (op : Op) (carro : BajaVehicle),
      (carro.alerta_suspensao_emitido ≠ 0 →
        (op.apply carro).alerta_suspensao_emitido ≠ 0) ∧
      (carro.alerta_motor_emitido ≠ 0 → (op.apply carro).alerta_motor_emitido ≠ 0)) ∧
    (∀ (ops later : List Op) (carro : BajaVehicle),
      ((applyOps ops carro).alerta_suspensao_emitido ≠ 0 →
        (applyOps (ops ++ later) carro).alerta_suspensao_emitido ≠ 0) ∧
      ((applyOps ops carro).alerta_motor_emitido ≠ 0 →
        (applyOps (ops ++ later) carro).alerta_motor_emitido ≠ 0)) ∧
    (∀ (carro : BajaVehicle) (m n : Nat), m ≤ n →
      ((afterLaps carro m).alerta_suspensao_emitido ≠ 0 →
        (afterLaps carro n).alerta_suspensao_emitido ≠ 0) ∧
      ((afterLaps carro m).alerta_motor_emitido ≠ 0 →
        (afterLaps carro n).alerta_motor_emitido ≠ 0)) ∧
    (∀ (carro : BajaVehicle) (volta : Int),
      (carro.alerta_suspensao_emitido ≠ 0 →
        (forLoop carro volta).carro.alerta_suspensao_emitido ≠ 0) ∧
      (carro.alerta_motor_emitido ≠ 0 →
        (forLoop carro volta).carro.alerta_motor_emitido ≠ 0)) := by
  refine ⟨fun op carro => ⟨Op.apply_flag_suspensao op carro, Op.apply_flag_motor op carro⟩,
    fun ops later carro => ⟨fun h => ?_, fun h => ?_⟩,
    fun carro m n hmn =>
      ⟨afterLaps_flag_suspensao carro m n hmn, afterLaps_flag_motor carro m n hmn⟩,
    fun carro volta => ⟨forLoop_flag_suspensao carro volta, forLoop_flag_motor carro volta⟩⟩
  · rw [applyOps_append]
    exact applyOps_flag_suspensao later _ h
  · rw [applyOps_append]
    exact applyOps_flag_motor later _ h

/-- Instance of C3: a vehicle whose suspension flag is set and whose suspension is
back above the threshold keeps the flag through `checkSystemAlerts`. -/
theorem alert_flags_latch_witness :
    (Op.checkSystemAlerts.apply
      { suspensao := 50, combustivel := 50, motor_temp := 90,
        alerta_suspensao_emitido := 1, alerta_motor_emitido := 0 }).alerta_suspensao_emitido
      ≠ 0 :=
  (alert_flags_latch.1 Op.checkSystemAlerts _).1 (by decide)


/-! ### Each alert is printed at most once -/

theorem countP_alertaSuspensao_wearAndPenalty (carro : BajaVehicle) (volta : Int) :
    (wearAndPenalty carro volta).2.countP isAlertaSuspensao = 0 := by
  simp only [wearAndPenalty]
  split_ifs <;> simp [isAlertaSuspensao]

theorem countP_alertaMotor_wearAndPenalty (carro : BajaVehicle) (volta : Int) :
    (wearAndPenalty carro volta).2.countP isAlertaMotor = 0 := by
  simp only [wearAndPenalty]
  split_ifs <;> simp [isAlertaMotor]

theorem countP_alertaSuspensao_printStatusReport (carro : BajaVehicle) (volta : Int) :
    (printStatusReport carro volta).countP isAlertaSuspensao = 0 := by
  simp [printStatusReport, isAlertaSuspensao]

theorem countP_alertaMotor_printStatusReport (carro : BajaVehicle) (volta : Int) :
    (printStatusReport carro volta).countP isAlertaMotor = 0 := by
  simp [printStatusReport, isAlertaMotor]

theorem countP_alertaSuspensao_printFinalReport (carro : BajaVehicle) (volta cc : Int) :
    (printFinalReport carro volta cc).countP isAlertaSuspensao = 0 := by
  simp only [printFinalReport, printOutcome, printStatusReport]
  split_ifs <;> simp [isAlertaSuspensao]

theorem countP_alertaMotor_printFinalReport (carro : BajaVehicle) (volta cc : Int) :
    (printFinalReport carro volta cc).countP isAlertaMotor = 0 := by
  simp only [printFinalReport, printOutcome, printStatusReport]
  split_ifs <;> simp [isAlertaMotor]

/-- What `checkSystemAlerts` prints about the suspension: one alert when the
value is below the limit and the flag is clear, and then the flag is set;
nothing otherwise. -/
theorem countP_alertaSuspensao_checkSystemAlerts (carro : BajaVehicle) :
    (checkSystemAlerts carro).2.countP isAlertaSuspensao ≤ 1 ∧
    (carro.alerta_suspensao_emitido ≠ 0 →
      (checkSystemAlerts carro).2.countP isAlertaSuspensao = 0) ∧
    ((checkSystemAlerts carro).2.countP isAlertaSuspensao ≠ 0 →
      (checkSystemAlerts carro).1.alerta_suspensao_emitido ≠ 0) := by
  simp only [checkSystemAlerts, checkEngineAlert, checkSuspensionAlert]
  split_ifs <;> simp_all [isAlertaSuspensao]

theorem countP_alertaMotor_checkSystemAlerts (carro : BajaVehicle) :
    (checkSystemAlerts carro).2.countP isAlertaMotor ≤ 1 ∧
    (carro.alerta_motor_emitido ≠ 0 →
      (checkSystemAlerts carro).2.countP isAlertaMotor = 0) ∧
    ((checkSystemAlerts carro).2.countP isAlertaMotor ≠ 0 →
      (checkSystemAlerts carro).1.alerta_motor_emitido ≠ 0) := by
  simp only [checkSystemAlerts, checkEngineAlert, checkSuspensionAlert]
  split_ifs <;> simp_all [isAlertaMotor]

theorem lapUpdate_saida (carro : BajaVehicle) (volta : Int) :
    (lapUpdate carro volta).2 =
      (wearAndPenalty carro volta).2 ++ (checkSystemAlerts (wearAndPenalty carro volta).1).2 ++
        (if volta % INTERVALO_RELATORIO = 0 then
          printStatusReport (lapUpdate carro volta).1 volta else []) := rfl

theorem countP_alertaSuspensao_lapUpdate (carro : BajaVehicle) (volta : Int) :
    (lapUpdate carro volta).2.countP isAlertaSuspensao =
      (checkSystemAlerts (wearAndPenalty carro volta).1).2.countP isAlertaSuspensao := by
  rw [lapUpdate_saida, List.countP_append, List.countP_append,
    countP_alertaSuspensao_wearAndPenalty]
  split_ifs <;> simp [countP_alertaSuspensao_printStatusReport]

theorem countP_alertaMotor_lapUpdate (carro : BajaVehicle) (volta : Int) :
    (lapUpdate carro volta).2.countP isAlertaMotor =
      (checkSystemAlerts (wearAndPenalty carro volta).1).2.countP isAlertaMotor := by
  rw [lapUpdate_saida, List.countP_append, List.countP_append,
    countP_alertaMotor_wearAndPenalty]
  split_ifs <;> simp [countP_alertaMotor_printStatusReport]

theorem countP_alertaSuspensao_loopBody (carro : BajaVehicle) (volta : Int) :
    (loopBody carro volta).saida.countP isAlertaSuspensao ≤ 1 ∧
    (carro.alerta_suspensao_emitido ≠ 0 →
      (loopBody carro volta).saida.countP isAlertaSuspensao = 0) ∧
    ((loopBody carro volta).saida.countP isAlertaSuspensao ≠ 0 →
      (loopBody carro volta).carro.alerta_suspensao_emitido ≠ 0) := by
  have h := countP_alertaSuspensao_checkSystemAlerts (wearAndPenalty carro volta).1
  rw [wearAndPenalty_flag_suspensao] at h
  have hc : (loopBody carro volta).saida.countP isAlertaSuspensao =
      (checkSystemAlerts (wearAndPenalty carro volta).1).2.countP isAlertaSuspensao := by
    rw [loopBody_saida, List.countP_append, countP_alertaSuspensao_lapUpdate]
    split_ifs <;> simp [countP_alertaSuspensao_printFinalReport]
  rw [hc, loopBody_carro, lapUpdate_carro]
  exact h

theorem countP_alertaMotor_loopBody (carro : BajaVehicle) (volta : Int) :
    (loopBody carro volta).saida.countP isAlertaMotor ≤ 1 ∧
    (carro.alerta_motor_emitido ≠ 0 →
      (loopBody carro volta).saida.countP isAlertaMotor = 0) ∧
    ((loopBody carro volta).saida.countP isAlertaMotor ≠ 0 →
      (loopBody carro volta).carro.alerta_motor_emitido ≠ 0) := by
  have h := countP_alertaMotor_checkSystemAlerts (wearAndPenalty carro volta).1
  rw [wearAndPenalty_flag_motor] at h
  have hc : (loopBody carro volta).saida.countP isAlertaMotor =
      (checkSystemAlerts (wearAndPenalty carro volta).1).2.countP isAlertaMotor := by
    rw [loopBody_saida, List.countP_append, countP_alertaMotor_lapUpdate]
    split_ifs <;> simp [countP_alertaMotor_printFinalReport]
  rw [hc, loopBody_carro, lapUpdate_carro]
  exact h

theorem countP_alertaSuspensao_forLoop (carro : BajaVehicle) (volta : Int) :
    (forLoop carro volta).saida.countP isAlertaSuspensao ≤ 1 ∧
    (carro.alerta_suspensao_emitido ≠ 0 →
      (forLoop carro volta).saida.countP isAlertaSuspensao = 0) := by
  refine forLoop_induction
    (fun c v => (forLoop c v).saida.countP isAlertaSuspensao ≤ 1 ∧
      (c.alerta_suspensao_emitido ≠ 0 →
        (forLoop c v).saida.countP isAlertaSuspensao = 0)) ?_ carro volta
  intro c v ih
  obtain ⟨hb1, hb2, hb3⟩ := countP_alertaSuspensao_loopBody c v
  rw [forLoop_eq]
  split_ifs with hv hcc
  · exact ⟨hb1, hb2⟩
  · obtain ⟨hr1, hr2⟩ := ih hv (loopBody c v).carro
    simp only [List.countP_append]
    constructor
    · by_cases h0 : (loopBody c v).saida.countP isAlertaSuspensao = 0
      · omega
      · have := hr2 (hb3 h0)
        omega
    · intro hflag
      have h0 := hb2 hflag
      have := hr2 (by rw [loopBody_carro]; exact lapUpdate_flag_suspensao c v hflag)
      omega
  · simp

theorem countP_alertaMotor_forLoop (carro : BajaVehicle) (volta : Int) :
    (forLoop carro volta).saida.countP isAlertaMotor ≤ 1 ∧
    (carro.alerta_motor_emitido ≠ 0 →
      (forLoop carro volta).saida.countP isAlertaMotor = 0) := by
  refine forLoop_induction
    (fun c v => (forLoop c v).saida.countP isAlertaMotor ≤ 1 ∧
      (c.alerta_motor_emitido ≠ 0 →
        (forLoop c v).saida.countP isAlertaMotor = 0)) ?_ carro volta
  intro c v ih
  obtain ⟨hb1, hb2, hb3⟩ := countP_alertaMotor_loopBody c v
  rw [forLoop_eq]
  split_ifs with hv hcc
  · exact ⟨hb1, hb2⟩
  · obtain ⟨hr1, hr2⟩ := ih hv (loopBody c v).carro
    simp only [List.countP_append]
    constructor
    · by_cases h0 : (loopBody c v).saida.countP isAlertaMotor = 0
      · omega
      · have := hr2 (hb3 h0)
        omega
    · intro hflag
      have h0 := hb2 hflag
      have := hr2 (by rw [loopBody_carro]; exact lapUpdate_flag_motor c v hflag)
      omega
  · simp

theorem simulate_eq (carro : BajaVehicle) :
    simulate carro =
      [Line.inicioDaSimulacao, Line.condicoesIniciais] ++ printStatusReport carro 0
        ++ (forLoop carro 1).saida
        ++ (if (forLoop carro 1).corrida_concluida ≠ 0 then
              printFinalReport (forLoop carro 1).carro NUMERO_TOTAL_DE_VOLTAS
                (forLoop carro 1).corrida_concluida
            else []) := rfl

/-- C4: from every vehicle whose two alert flags are clear, the output of the main
loop, and with it the whole output of the run, contains the suspension alert at
most once and the engine-temperature alert at most once, whatever the values do
on later laps. -/
theorem alerts_at_most_once (carro : BajaVehicle)
    (_hs : carro.alerta_suspensao_emitido = 0) (_hm : carro.alerta_motor_emitido = 0) :
    (forLoop carro 1).saida.countP isAlertaSuspensao ≤ 1 ∧
    (forLoop carro 1).saida.countP isAlertaMotor ≤ 1 ∧
    (simulate carro).countP isAlertaSuspensao ≤ 1 ∧
    (simulate carro).countP isAlertaMotor ≤ 1 := by
  have hS := (countP_alertaSuspensao_forLoop carro 1).1
  have hM := (countP_alertaMotor_forLoop carro 1).1
  refine ⟨hS, hM, ?_, ?_⟩
  · rw [simulate_eq]
    simp only [List.countP_append, countP_alertaSuspensao_printStatusReport]
    split_ifs <;>
      simp [countP_alertaSuspensao_printFinalReport, isAlertaSuspensao, hS]
  · rw [simulate_eq]
    simp only [List.countP_append, countP_alertaMotor_printStatusReport]
    split_ifs <;>
      simp [countP_alertaMotor_printFinalReport, isAlertaMotor, hM]

/-- Witness of C4: the vehicle of `initializeBaja` has both flags clear, and the
output of its run contains each alert at most once. -/
theorem alerts_at_most_once_witness :
    initializeBaja.alerta_suspensao_emitido = 0 ∧ initializeBaja.alerta_motor_emitido = 0 ∧
    (simulate initializeBaja).countP isAlertaSuspensao ≤ 1 ∧
    (simulate initializeBaja).countP isAlertaMotor ≤ 1 :=
  ⟨rfl, rfl, (alerts_at_most_once initializeBaja rfl rfl).2.2⟩


/-! ### The reports -/

/-- C5: for every vehicle and lap number, the suspension and the fuel that
`printStatusReport` prints are `max` of the stored value and `0`, hence never
negative, also when the stored value is negative; the engine temperature it
prints is the stored value itself. -/
theorem printStatusReport_clamps (carro : BajaVehicle) (volta : Int) :
    printStatusReport carro volta =
      [ Line.relatorioDaVolta volta,
        Line.separador,
        Line.linhaSuspensao (max carro.suspensao 0),
        Line.linhaCombustivel (max carro.combustivel 0),
        Line.linhaMotor carro.motor_temp,
        Line.separador ] ∧
    (∀ v, Line.linhaSuspensao v ∈ printStatusReport carro volta →
      0 ≤ v ∧ v = max carro.suspensao 0) ∧
    (∀ v, Line.linhaCombustivel v ∈ printStatusReport carro volta →
      0 ≤ v ∧ v = max carro.combustivel 0) ∧
    (∀ v, Line.linhaMotor v ∈ printStatusReport carro volta → v = carro.motor_temp) := by
  have hs : (if carro.suspensao > 0 then carro.suspensao else 0) = max carro.suspensao 0 := by
    split_ifs with h
    · exact (max_eq_left (le_of_lt h)).symm
    · exact (max_eq_right (not_lt.mp h)).symm
  have hf : (if carro.combustivel > 0 then carro.combustivel else 0)
      = max carro.combustivel 0 := by
    split_ifs with h
    · exact (max_eq_left (le_of_lt h)).symm
    · exact (max_eq_right (not_lt.mp h)).symm
  have heq : printStatusReport carro volta =
      [ Line.relatorioDaVolta volta,
        Line.separador,
        Line.linhaSuspensao (max carro.suspensao 0),
        Line.linhaCombustivel (max carro.combustivel 0),
        Line.linhaMotor carro.motor_temp,
        Line.separador ] := by
    simp only [printStatusReport, hs, hf]
  refine ⟨heq, ?_, ?_, ?_⟩
  · intro v hv
    rw [heq] at hv
    simp at hv
    subst hv
    exact ⟨le_max_right _ _, rfl⟩
  · intro v hv
    rw [heq] at hv
    simp at hv
    subst hv
    exact ⟨le_max_right _ _, rfl⟩
  · intro v hv
    rw [heq] at hv
    simp at hv
    exact hv

/-- Instance of C5 at a vehicle whose stored suspension and fuel are negative: the
report of lap 7 shows `0` for both and the temperature as stored. -/
theorem printStatusReport_clamps_witness :
    printStatusReport
      { suspensao := -3, combustivel := -1 / 2, motor_temp := 150,
        alerta_suspensao_emitido := 1, alerta_motor_emitido := 1 } 7 =
      [ Line.relatorioDaVolta 7, Line.separador, Line.linhaSuspensao 0,
        Line.linhaCombustivel 0, Line.linhaMotor 150, Line.separador ] := by
  rw [(printStatusReport_clamps _ 7).1]
  norm_num

/-- C6: for every vehicle with suspension `≤ 0` and fuel `≤ 0` and every lap
number, `printFinalReport` with `corrida_concluida = 0` prints the line of the
total suspension failure and does not print the line of the exhausted fuel. -/
theorem printFinalReport_suspension_priority (carro : BajaVehicle) (volta : Int)
    (hs : carro.suspensao ≤ 0) (_hf : carro.combustivel ≤ 0) :
    printFinalReport carro volta 0 =
      [ Line.cerquilhas, Line.fimDaSimulacao, Line.cerquilhas, Line.falhaCritica volta,
        Line.motivoSuspensao, Line.estadoFinal ] ++ printStatusReport carro volta ∧
    Line.motivoSuspensao ∈ printFinalReport carro volta 0 ∧
    Line.motivoCombustivel ∉ printFinalReport carro volta 0 := by
  have heq : printFinalReport carro volta 0 =
      [ Line.cerquilhas, Line.fimDaSimulacao, Line.cerquilhas, Line.falhaCritica volta,
        Line.motivoSuspensao, Line.estadoFinal ] ++ printStatusReport carro volta := by
    simp [printFinalReport, printOutcome, hs]
  refine ⟨heq, ?_, ?_⟩
  · rw [heq]
    simp
  · rw [heq]
    simp [printStatusReport]

/-- Witness of C6: a vehicle with suspension `-1` and fuel `0` at lap 50. -/
theorem printFinalReport_suspension_priority_witness :
    (-1 : ℚ) ≤ 0 ∧ (0 : ℚ) ≤ 0 ∧
    Line.motivoSuspensao ∈ printFinalReport
      { suspensao := -1, combustivel := 0, motor_temp := 130,
        alerta_suspensao_emitido := 1, alerta_motor_emitido := 1 } 50 0 ∧
    Line.motivoCombustivel ∉ printFinalReport
      { suspensao := -1, combustivel := 0, motor_temp := 130,
        alerta_suspensao_emitido := 1, alerta_motor_emitido := 1 } 50 0 :=
  ⟨by norm_num, le_refl 0,
    (printFinalReport_suspension_priority
      { suspensao := -1, combustivel := 0, motor_temp := 130,
        alerta_suspensao_emitido := 1, alerta_motor_emitido := 1 } 50
      (by norm_num) (le_refl 0)).2⟩


/-! ### The alert comes before the report of a failure -/

theorem fimDaSimulacao_not_mem_wearAndPenalty (carro : BajaVehicle) (volta : Int) :
    Line.fimDaSimulacao ∉ (wearAndPenalty carro volta).2 := by
  simp only [wearAndPenalty]
  split_ifs <;> simp

theorem fimDaSimulacao_not_mem_checkSystemAlerts (carro : BajaVehicle) :
    Line.fimDaSimulacao ∉ (checkSystemAlerts carro).2 := by
  simp only [checkSystemAlerts, checkEngineAlert, checkSuspensionAlert]
  split_ifs <;> simp

theorem fimDaSimulacao_not_mem_checkEngineAlert (carro : BajaVehicle) :
    Line.fimDaSimulacao ∉ (checkEngineAlert carro).2 := by
  simp only [checkEngineAlert]
  split_ifs <;> simp

theorem fimDaSimulacao_not_mem_printStatusReport (carro : BajaVehicle) (volta : Int) :
    Line.fimDaSimulacao ∉ printStatusReport carro volta := by
  simp [printStatusReport]

theorem fimDaSimulacao_not_mem_lapUpdate (carro : BajaVehicle) (volta : Int) :
    Line.fimDaSimulacao ∉ (lapUpdate carro volta).2 := by
  rw [lapUpdate_saida]
  have h1 := fimDaSimulacao_not_mem_wearAndPenalty carro volta
  have h2 := fimDaSimulacao_not_mem_checkSystemAlerts (wearAndPenalty carro volta).1
  have h3 := fimDaSimulacao_not_mem_printStatusReport (lapUpdate carro volta).1 volta
  split_ifs <;> simp [h1, h2, h3]

theorem fimDaSimulacao_mem_printFinalReport (carro : BajaVehicle) (volta cc : Int) :
    Line.fimDaSimulacao ∈ printFinalReport carro volta cc := by
  simp [printFinalReport]

/-- With the constants of the source one lap takes at most `5` from the
suspension: a vehicle that enters a lap with suspension `≥ 20` leaves the wear
and penalty with suspension `≥ 15`, so it cannot reach `≤ 0` on that lap. -/
theorem wearAndPenalty_suspensao_ge (carro : BajaVehicle) (volta : Int) :
    carro.suspensao - 5 ≤ (wearAndPenalty carro volta).1.suspensao := by
  simp only [wearAndPenalty]
  split_ifs <;>
    simp only [applyPeriodicPenalty, runLap, DESGASTE_SUSPENSAO_POR_VOLTA,
      PENALIDADE_SUSPENSAO] <;>
    linarith

/-- C7: for every vehicle that enters a lap with the suspension flag clear, if the
wear of the lap (and the penalty, when due) brings the suspension to `≤ 0`, then
the output of that pass through the loop body contains the suspension alert
(with the value just reached), and the alert stands before the final report:
the banner of the final report occurs in the report that ends the output and
nowhere before the alert or between the alert and that report.  No assumption is
made on the suspension at entry, so the statement covers every vehicle that
enters with suspension `≥ 20`. -/
theorem alert_before_final_report (carro : BajaVehicle) (volta : Int)
    (hflag : carro.alerta_suspensao_emitido = 0)
    (hfail : (wearAndPenalty carro volta).1.suspensao ≤ 0) :
    ∃ pre mid : List Line,
      (loopBody carro volta).saida =
        pre ++ Line.alertaSuspensao (wearAndPenalty carro volta).1.suspensao ::
          (mid ++ printFinalReport (loopBody carro volta).carro volta 0) ∧
      Line.fimDaSimulacao ∉ pre ∧ Line.fimDaSimulacao ∉ mid ∧
      Line.fimDaSimulacao ∈ printFinalReport (loopBody carro volta).carro volta 0 := by
  have hfc : failureCheck (lapUpdate carro volta).1 := by
    left
    rw [lapUpdate_carro, checkSystemAlerts_suspensao]
    exact hfail
  have halert : (checkSystemAlerts (wearAndPenalty carro volta).1).2 =
      Line.alertaSuspensao (wearAndPenalty carro volta).1.suspensao ::
        (checkEngineAlert (checkSuspensionAlert (wearAndPenalty carro volta).1).1).2 := by
    have hlt : (wearAndPenalty carro volta).1.suspensao < LIMITE_ALERTA_SUSPENSAO := by
      unfold LIMITE_ALERTA_SUSPENSAO
      linarith
    have hfl : (wearAndPenalty carro volta).1.alerta_suspensao_emitido = 0 := by
      rw [wearAndPenalty_flag_suspensao]
      exact hflag
    simp only [checkSystemAlerts]
    rw [show checkSuspensionAlert (wearAndPenalty carro volta).1 =
      ({ (wearAndPenalty carro volta).1 with alerta_suspensao_emitido := 1 },
        [Line.alertaSuspensao (wearAndPenalty carro volta).1.suspensao]) from by
      simp only [checkSuspensionAlert]
      rw [if_pos ⟨hlt, hfl⟩]]
    rfl
  refine ⟨(wearAndPenalty carro volta).2,
    (checkEngineAlert (checkSuspensionAlert (wearAndPenalty carro volta).1).1).2 ++
      (if volta % INTERVALO_RELATORIO = 0 then
        printStatusReport (lapUpdate carro volta).1 volta else []), ?_,
    fimDaSimulacao_not_mem_wearAndPenalty carro volta, ?_,
    fimDaSimulacao_mem_printFinalReport _ _ _⟩
  · rw [loopBody_saida, if_pos hfc, loopBody_carro, lapUpdate_saida, halert]
    simp
  · have h2 := fimDaSimulacao_not_mem_checkEngineAlert
      (checkSuspensionAlert (wearAndPenalty carro volta).1).1
    have h3 := fimDaSimulacao_not_mem_printStatusReport (lapUpdate carro volta).1 volta
    split_ifs <;> simp [h2, h3]

/-- Witness of C7: the vehicle `carroQuaseSemSuspensao` (suspension `2`, flag
clear) enters lap 1; the wear brings the suspension to `0`. -/
theorem alert_before_final_report_witness :
    carroQuaseSemSuspensao.alerta_suspensao_emitido = 0 ∧
    (wearAndPenalty carroQuaseSemSuspensao 1).1.suspensao ≤ 0 ∧
    ∃ pre mid : List Line,
      (loopBody carroQuaseSemSuspensao 1).saida =
        pre ++ Line.alertaSuspensao (wearAndPenalty carroQuaseSemSuspensao 1).1.suspensao ::
          (mid ++ printFinalReport (loopBody carroQuaseSemSuspensao 1).carro 1 0) ∧
      Line.fimDaSimulacao ∉ pre ∧ Line.fimDaSimulacao ∉ mid ∧
      Line.fimDaSimulacao ∈ printFinalReport (loopBody carroQuaseSemSuspensao 1).carro 1 0 :=
  ⟨rfl,
    by norm_num [carroQuaseSemSuspensao, wearAndPenalty, runLap, INTERVALO_PENALIDADE,
      DESGASTE_SUSPENSAO_POR_VOLTA],
    alert_before_final_report carroQuaseSemSuspensao 1 rfl
      (by norm_num [carroQuaseSemSuspensao, wearAndPenalty, runLap, INTERVALO_PENALIDADE,
        DESGASTE_SUSPENSAO_POR_VOLTA])⟩


/-! ### The outcome of the `for` loop -/

theorem loopBody_eq_of_failure (carro : BajaVehicle) (volta : Int)
    (h : failureCheck (lapUpdate carro volta).1) :
    loopBody carro volta =
      { carro := (lapUpdate carro volta).1
        saida := (lapUpdate carro volta).2 ++ printFinalReport (lapUpdate carro volta).1 volta 0
        corrida_concluida := 0 } := by
  simp only [loopBody]
  exact if_pos h

theorem loopBody_eq_of_not_failure (carro : BajaVehicle) (volta : Int)
    (h : ¬ failureCheck (lapUpdate carro volta).1) :
    loopBody carro volta =
      { carro := (lapUpdate carro volta).1
        saida := (lapUpdate carro volta).2
        corrida_concluida := 1 } := by
  simp only [loopBody]
  exact if_neg h

/-- As long as no lap up to `k` trips the failure check, the loop started at lap 1
has printed the lines of the laps `1, …, k` and goes on from lap `k + 1` with the
vehicle `afterLaps carro k`. -/
theorem forLoop_after_laps (carro : BajaVehicle) (k : Nat) (hk : k ≤ 100)
    (hno : ∀ j, 1 ≤ j → j ≤ k → ¬ failureCheck (afterLaps carro j)) :
    forLoop carro 1 =
      { carro := (forLoop (afterLaps carro k) ((k : Int) + 1)).carro
        saida := lapsOutput carro k ++ (forLoop (afterLaps carro k) ((k : Int) + 1)).saida
        corrida_concluida := (forLoop (afterLaps carro k) ((k : Int) + 1)).corrida_concluida } := by
  induction k with
  | zero => simp [afterLaps, lapsOutput]
  | succ m ih =>
    have hm : ¬ failureCheck (lapUpdate (afterLaps carro m) ((m : Int) + 1)).1 :=
      hno (m + 1) (by omega) (le_refl _)
    have hv : ((m : Int) + 1) ≤ NUMERO_TOTAL_DE_VOLTAS := by
      unfold NUMERO_TOTAL_DE_VOLTAS
      omega
    rw [ih (by omega) (fun j h1 hj => hno j h1 (by omega))]
    rw [forLoop_eq (afterLaps carro m), if_pos hv, loopBody_eq_of_not_failure _ _ hm]
    simp [afterLaps, lapsOutput]

/-- The two ways the `for` loop can end: at the first lap `k` in `1..100` on which
the failure check holds, with the final report of the failure printed and
`corrida_concluida = 0`; or after lap 100 with `corrida_concluida = 1` when the
failure check holds on no lap. -/
theorem forLoop_outcome (carro : BajaVehicle) :
    (∃ k : Nat, 1 ≤ k ∧ k ≤ 100 ∧ failureCheck (afterLaps carro k) ∧
      (∀ j, 1 ≤ j → j < k → ¬ failureCheck (afterLaps carro j)) ∧
      forLoop carro 1 =
        { carro := afterLaps carro k
          saida := lapsOutput carro k ++ printFinalReport (afterLaps carro k) k 0
          corrida_concluida := 0 }) ∨
    ((∀ j, 1 ≤ j → j ≤ 100 → ¬ failureCheck (afterLaps carro j)) ∧
      forLoop carro 1 =
        { carro := afterLaps carro 100
          saida := lapsOutput carro 100
          corrida_concluida := 1 }) := by
  by_cases h : ∃ k : Nat, 1 ≤ k ∧ k ≤ 100 ∧ failureCheck (afterLaps carro k)
  · left
    obtain ⟨h1, h100, hfail⟩ := Nat.find_spec h
    have hmin : ∀ j, 1 ≤ j → j < Nat.find h → ¬ failureCheck (afterLaps carro j) := by
      intro j hj1 hjk hf
      exact Nat.find_min h hjk ⟨hj1, by omega, hf⟩
    generalize Nat.find h = k at h1 h100 hfail hmin
    obtain ⟨m, rfl⟩ : ∃ m, k = m + 1 := ⟨k - 1, by omega⟩
    refine ⟨m + 1, h1, h100, hfail, hmin, ?_⟩
    have hv : ((m : Int) + 1) ≤ NUMERO_TOTAL_DE_VOLTAS := by
      unfold NUMERO_TOTAL_DE_VOLTAS
      omega
    have hf' : failureCheck (lapUpdate (afterLaps carro m) ((m : Int) + 1)).1 := hfail
    rw [forLoop_after_laps carro m (by omega) (fun j h1 hj => hmin j h1 (by omega))]
    rw [forLoop_eq (afterLaps carro m), if_pos hv, loopBody_eq_of_failure _ _ hf']
    simp [afterLaps, lapsOutput]
  · right
    have hno : ∀ j, 1 ≤ j → j ≤ 100 → ¬ failureCheck (afterLaps carro j) :=
      fun j h1 h100 hf => h ⟨j, h1, h100, hf⟩
    refine ⟨hno, ?_⟩
    have hv : ¬ (((100 : Nat) : Int) + 1) ≤ NUMERO_TOTAL_DE_VOLTAS := by
      unfold NUMERO_TOTAL_DE_VOLTAS
      omega
    rw [forLoop_after_laps carro 100 (le_refl _) hno]
    rw [forLoop_eq (afterLaps carro 100), if_neg hv]
    simp

theorem count_fimDaSimulacao_printStatusReport (carro : BajaVehicle) (volta : Int) :
    (printStatusReport carro volta).count Line.fimDaSimulacao = 0 :=
  List.count_eq_zero.mpr (fimDaSimulacao_not_mem_printStatusReport carro volta)

theorem count_fimDaSimulacao_printFinalReport (carro : BajaVehicle) (volta cc : Int) :
    (printFinalReport carro volta cc).count Line.fimDaSimulacao = 1 := by
  have h := count_fimDaSimulacao_printStatusReport carro volta
  simp only [printFinalReport, printOutcome]
  split_ifs <;> simp [List.count_cons, h]

theorem count_fimDaSimulacao_lapsOutput (carro : BajaVehicle) (n : Nat) :
    (lapsOutput carro n).count Line.fimDaSimulacao = 0 := by
  induction n with
  | zero => simp [lapsOutput]
  | succ m ih =>
    simp only [lapsOutput, List.count_append, ih, Nat.zero_add]
    exact List.count_eq_zero.mpr (fimDaSimulacao_not_mem_lapUpdate _ _)


/-- C8: from every vehicle the main loop reaches exactly one terminal state and
the final report is printed exactly once.  Either some lap `k` in `1..100` is the
first whose failure check (made on the vehicle left by wear, penalty, alerts and
periodic report) holds: then the loop ends with `corrida_concluida = 0` and the
vehicle of lap `k`, and the output is the opening, the lines of the laps `1..k`
and the final report of the failure at lap `k`, with nothing of a later lap.  Or
the failure check holds on no lap in `1..100`: then the loop ends with
`corrida_concluida = 1` and the vehicle of lap 100, and the output is the opening,
the lines of the laps `1..100` and the final report of the success with lap
number 100.  In both cases the banner of the final report occurs once in the
output. -/
theorem exactly_one_terminal_state (carro : BajaVehicle) :
    ((∃ k : Nat, 1 ≤ k ∧ k ≤ 100 ∧ failureCheck (afterLaps carro k) ∧
        (∀ j, 1 ≤ j → j < k → ¬ failureCheck (afterLaps carro j)) ∧
        (forLoop carro 1).corrida_concluida = 0 ∧
        (forLoop carro 1).carro = afterLaps carro k ∧
        simulate carro =
          [Line.inicioDaSimulacao, Line.condicoesIniciais] ++ printStatusReport carro 0
            ++ lapsOutput carro k ++ printFinalReport (afterLaps carro k) k 0) ∨
      ((∀ j, 1 ≤ j → j ≤ 100 → ¬ failureCheck (afterLaps carro j)) ∧
        (forLoop carro 1).corrida_concluida = 1 ∧
        (forLoop carro 1).carro = afterLaps carro 100 ∧
        simulate carro =
          [Line.inicioDaSimulacao, Line.condicoesIniciais] ++ printStatusReport carro 0
            ++ lapsOutput carro 100 ++ printFinalReport (afterLaps carro 100) 100 1)) ∧
    (simulate carro).count Line.fimDaSimulacao = 1 := by
  have hS := count_fimDaSimulacao_printStatusReport carro 0
  rcases forLoop_outcome carro with ⟨k, h1, h100, hfail, hmin, hloop⟩ | ⟨hno, hloop⟩
  · have hsim : simulate carro =
        [Line.inicioDaSimulacao, Line.condicoesIniciais] ++ printStatusReport carro 0
          ++ lapsOutput carro k ++ printFinalReport (afterLaps carro k) k 0 := by
      rw [simulate_eq, hloop]
      simp
    refine ⟨Or.inl ⟨k, h1, h100, hfail, hmin, ?_, ?_, hsim⟩, ?_⟩
    · rw [hloop]
    · rw [hloop]
    · rw [hsim]
      simp [List.count_append, List.count_cons, hS, count_fimDaSimulacao_lapsOutput,
        count_fimDaSimulacao_printFinalReport]
  · have hsim : simulate carro =
        [Line.inicioDaSimulacao, Line.condicoesIniciais] ++ printStatusReport carro 0
          ++ lapsOutput carro 100 ++ printFinalReport (afterLaps carro 100) 100 1 := by
      rw [simulate_eq, hloop]
      simp [NUMERO_TOTAL_DE_VOLTAS]
    refine ⟨Or.inr ⟨hno, ?_, ?_, hsim⟩, ?_⟩
    · rw [hloop]
    · rw [hloop]
    · rw [hsim]
      simp [List.count_append, List.count_cons, hS, count_fimDaSimulacao_lapsOutput,
        count_fimDaSimulacao_printFinalReport]

/-! ### Closed form of wear and penalty -/

theorem wearAndPenalty_succ (carro : BajaVehicle) (n : Nat) :
    (wearAndPenalty carro ((n : Int) + 1)).1 =
      if 10 ∣ n + 1 then applyPeriodicPenalty (runLap carro) else runLap carro := by
  have h : ((n : Int) + 1) % INTERVALO_PENALIDADE = 0 ↔ 10 ∣ n + 1 := by
    unfold INTERVALO_PENALIDADE
    omega
  simp only [wearAndPenalty]
  by_cases hd : 10 ∣ n + 1
  · rw [if_pos (h.mpr hd), if_pos hd]
  · rw [if_neg (fun hh => hd (h.mp hh)), if_neg hd]

theorem wearLaps_closed (carro : BajaVehicle) (n : Nat) :
    wearLaps carro n =
      { carro with
        suspensao := carro.suspensao - 2 * n - 3 * (n / 10 : Nat)
        combustivel := carro.combustivel - 3 / 2 * n
        motor_temp := carro.motor_temp + n + 5 * (n / 10 : Nat) } := by
  induction n with
  | zero => simp [wearLaps]
  | succ m ih =>
    rw [wearLaps, wearAndPenalty_succ, ih, Nat.succ_div]
    by_cases hd : 10 ∣ m + 1
    · simp only [if_pos hd, applyPeriodicPenalty, runLap, DESGASTE_SUSPENSAO_POR_VOLTA,
        CONSUMO_COMBUSTIVEL_POR_VOLTA, AUMENTO_TEMP_MOTOR_POR_VOLTA, PENALIDADE_SUSPENSAO,
        PENALIDADE_TEMPERATURA_MOTOR, BajaVehicle.mk.injEq, and_true]
      push_cast
      refine ⟨?_, ?_, ?_⟩ <;> ring
    · simp only [if_neg hd, runLap, DESGASTE_SUSPENSAO_POR_VOLTA,
        CONSUMO_COMBUSTIVEL_POR_VOLTA, AUMENTO_TEMP_MOTOR_POR_VOLTA, BajaVehicle.mk.injEq,
        and_true]
      push_cast
      refine ⟨?_, ?_, ?_⟩ <;> ring

/-- The alerts and reports of `lapUpdate` leave the three values alone: after `n`
laps they are the values of wear and penalty alone. -/
theorem afterLaps_values (carro : BajaVehicle) (n : Nat) :
    (afterLaps carro n).suspensao = (wearLaps carro n).suspensao ∧
    (afterLaps carro n).combustivel = (wearLaps carro n).combustivel ∧
    (afterLaps carro n).motor_temp = (wearLaps carro n).motor_temp := by
  induction n with
  | zero => exact ⟨rfl, rfl, rfl⟩
  | succ m ih =>
    obtain ⟨h1, h2, h3⟩ := ih
    simp only [afterLaps, wearLaps, lapUpdate_carro, checkSystemAlerts_suspensao,
      checkSystemAlerts_combustivel, checkSystemAlerts_motor_temp, wearAndPenalty_succ]
    split_ifs <;> simp [applyPeriodicPenalty, runLap, h1, h2, h3]

/-- C9: from the vehicle of `initializeBaja`, the wear of 100 laps together with
the penalty on the laps that are multiples of 10 (ten of them), without the
failure check, leaves suspension `100 - 2·100 - 3·10 = -130` and fuel
`100 - 1.5·100 = -50`, and `printStatusReport` shows both as `0`. -/
theorem hundred_laps_without_failure_check :
    (wearLaps initializeBaja 100).suspensao = 100 - 2 * 100 - 3 * 10 ∧
    (wearLaps initializeBaja 100).suspensao = -130 ∧
    (wearLaps initializeBaja 100).combustivel = 100 - 3 / 2 * 100 ∧
    (wearLaps initializeBaja 100).combustivel = -50 ∧
    (afterLaps initializeBaja 100).suspensao = -130 ∧
    (afterLaps initializeBaja 100).combustivel = -50 ∧
    (∀ volta : Int,
      printStatusReport (wearLaps initializeBaja 100) volta =
        [ Line.relatorioDaVolta volta, Line.separador, Line.linhaSuspensao 0,
          Line.linhaCombustivel 0, Line.linhaMotor 230, Line.separador ]) := by
  have hw : wearLaps initializeBaja 100 =
      { suspensao := -130, combustivel := -50, motor_temp := 230,
        alerta_suspensao_emitido := 0, alerta_motor_emitido := 0 } := by
    rw [wearLaps_closed]
    simp only [initializeBaja, SUSPENSAO_INICIAL, COMBUSTIVEL_INICIAL,
      TEMPERATURA_INICIAL_MOTOR, BajaVehicle.mk.injEq, and_true]
    norm_num
  obtain ⟨ha1, ha2, _⟩ := afterLaps_values initializeBaja 100
  rw [ha1, ha2, hw]
  refine ⟨by norm_num, rfl, by norm_num, rfl, rfl, rfl, ?_⟩
  intro volta
  simp [printStatusReport]


/-- C10: from every vehicle and whichever way the run ends, the output opens with
the two heading lines and the status report of lap 0 for the starting vehicle,
before the lines of any lap, and it ends with the status report, printed by
`printFinalReport` after its banner, outcome lines and `estadoFinal` line, of the
vehicle the loop has left and of the final lap number `k`: the first failing lap
when the run fails (`cc = 0`), lap 100 when it succeeds (`cc = 1`). -/
theorem initial_and_final_status_reports (carro : BajaVehicle) :
    ∃ (k : Nat) (cc : Int), 1 ≤ k ∧ k ≤ 100 ∧
      (forLoop carro 1).carro = afterLaps carro k ∧
      (forLoop carro 1).corrida_concluida = cc ∧
      ((cc = 0 ∧ failureCheck (afterLaps carro k) ∧
          ∀ j, 1 ≤ j → j < k → ¬ failureCheck (afterLaps carro j)) ∨
        (cc = 1 ∧ k = 100 ∧ ∀ j, 1 ≤ j → j ≤ 100 → ¬ failureCheck (afterLaps carro j))) ∧
      simulate carro =
        [Line.inicioDaSimulacao, Line.condicoesIniciais] ++ printStatusReport carro 0
          ++ lapsOutput carro k
          ++ ([Line.cerquilhas, Line.fimDaSimulacao, Line.cerquilhas]
            ++ printOutcome (afterLaps carro k) k cc ++ [Line.estadoFinal])
          ++ printStatusReport (afterLaps carro k) k := by
  rcases forLoop_outcome carro with ⟨k, h1, h100, hfail, hmin, hloop⟩ | ⟨hno, hloop⟩
  · refine ⟨k, 0, h1, h100, ?_, ?_, Or.inl ⟨rfl, hfail, hmin⟩, ?_⟩
    · rw [hloop]
    · rw [hloop]
    · rw [simulate_eq, hloop]
      simp [printFinalReport]
  · refine ⟨100, 1, by decide, le_refl _, ?_, ?_, Or.inr ⟨rfl, rfl, hno⟩, ?_⟩
    · rw [hloop]
    · rw [hloop]
    · rw [simulate_eq, hloop]
      simp [printFinalReport, NUMERO_TOTAL_DE_VOLTAS]


/-! ### The exact-arithmetic model on the program's own run -/

/-- Along the first 100 laps from `initializeBaja` every stored value is a multiple
of `1/2` of magnitude below `2^24`: such values are represented exactly by the
`float` and `double` of the source, which is why the arithmetic of the program's
run is exact. -/
theorem wearLaps_initializeBaja_half_integers (n : Nat) (hn : n ≤ 100) :
    ∃ a b c : Int,
      (wearLaps initializeBaja n).suspensao = (a : ℚ) / 2 ∧
      (wearLaps initializeBaja n).combustivel = (b : ℚ) / 2 ∧
      (wearLaps initializeBaja n).motor_temp = (c : ℚ) / 2 ∧
      |a| < 2 ^ 24 ∧ |b| < 2 ^ 24 ∧ |c| < 2 ^ 24 := by
  refine ⟨200 - 4 * n - 6 * (n / 10 : Nat), 200 - 3 * n, 160 + 2 * n + 10 * (n / 10 : Nat),
    ?_, ?_, ?_, ?_, ?_, ?_⟩
  · rw [wearLaps_closed]
    simp only [initializeBaja, SUSPENSAO_INICIAL]
    simp only [Int.cast_sub, Int.cast_add, Int.cast_mul, Int.cast_natCast, Int.cast_ofNat]
    ring
  · rw [wearLaps_closed]
    simp only [initializeBaja, COMBUSTIVEL_INICIAL]
    simp only [Int.cast_sub, Int.cast_add, Int.cast_mul, Int.cast_natCast, Int.cast_ofNat]
    ring
  · rw [wearLaps_closed]
    simp only [initializeBaja, TEMPERATURA_INICIAL_MOTOR]
    simp only [Int.cast_sub, Int.cast_add, Int.cast_mul, Int.cast_natCast, Int.cast_ofNat]
    ring
  · rw [abs_lt]
    constructor <;> omega
  · rw [abs_lt]
    constructor <;> omega
  · rw [abs_lt]
    constructor <;> omega


/-! ### What `checkSystemAlerts` does -/

/-- The result of `checkSystemAlerts` in one piece: the two tests read the vehicle
as it was on entry. -/
theorem checkSystemAlerts_eq (carro : BajaVehicle) :
    checkSystemAlerts carro =
      ({ carro with
          alerta_suspensao_emitido :=
            if carro.suspensao < LIMITE_ALERTA_SUSPENSAO ∧ carro.alerta_suspensao_emitido = 0
            then 1 else carro.alerta_suspensao_emitido
          alerta_motor_emitido :=
            if carro.motor_temp > LIMITE_ALERTA_MOTOR ∧ carro.alerta_motor_emitido = 0
            then 1 else carro.alerta_motor_emitido },
        (if carro.suspensao < LIMITE_ALERTA_SUSPENSAO ∧ carro.alerta_suspensao_emitido = 0
          then [Line.alertaSuspensao carro.suspensao] else []) ++
        (if carro.motor_temp > LIMITE_ALERTA_MOTOR ∧ carro.alerta_motor_emitido = 0
          then [Line.alertaMotor carro.motor_temp] else [])) := by
  simp only [checkSystemAlerts, checkEngineAlert, checkSuspensionAlert]
  split_ifs <;> simp_all

/-- C12: `checkSystemAlerts` leaves suspension, fuel and engine temperature as
they were.  It prints the suspension alert, with the stored value, and sets the
suspension flag exactly when the suspension is below 20 and the flag was clear;
independently it prints the engine alert and sets the engine flag exactly when
the temperature is above 115 and that flag was clear; when both conditions hold
both alerts are printed in the one call, suspension first.  Otherwise a flag
keeps its value.  A second call right after the first prints nothing and leaves
the vehicle as the first call left it. -/
theorem checkSystemAlerts_behaviour (carro : BajaVehicle) :
    (checkSystemAlerts carro).1.suspensao = carro.suspensao ∧
    (checkSystemAlerts carro).1.combustivel = carro.combustivel ∧
    (checkSystemAlerts carro).1.motor_temp = carro.motor_temp ∧
    (checkSystemAlerts carro).2 =
      (if carro.suspensao < 20 ∧ carro.alerta_suspensao_emitido = 0
        then [Line.alertaSuspensao carro.suspensao] else []) ++
      (if carro.motor_temp > 115 ∧ carro.alerta_motor_emitido = 0
        then [Line.alertaMotor carro.motor_temp] else []) ∧
    (checkSystemAlerts carro).1.alerta_suspensao_emitido =
      (if carro.suspensao < 20 ∧ carro.alerta_suspensao_emitido = 0
        then 1 else carro.alerta_suspensao_emitido) ∧
    (checkSystemAlerts carro).1.alerta_motor_emitido =
      (if carro.motor_temp > 115 ∧ carro.alerta_motor_emitido = 0
        then 1 else carro.alerta_motor_emitido) ∧
    ((carro.suspensao < 20 ∧ carro.alerta_suspensao_emitido = 0) →
      (carro.motor_temp > 115 ∧ carro.alerta_motor_emitido = 0) →
      (checkSystemAlerts carro).2 =
        [Line.alertaSuspensao carro.suspensao, Line.alertaMotor carro.motor_temp]) ∧
    checkSystemAlerts (checkSystemAlerts carro).1 = ((checkSystemAlerts carro).1, []) := by
  refine ⟨checkSystemAlerts_suspensao carro, checkSystemAlerts_combustivel carro,
    checkSystemAlerts_motor_temp carro, ?_, ?_, ?_, ?_, ?_⟩
  · rw [checkSystemAlerts_eq]
    rfl
  · rw [checkSystemAlerts_eq]
    rfl
  · rw [checkSystemAlerts_eq]
    rfl
  · intro hs hm
    rw [checkSystemAlerts_eq]
    simp only [LIMITE_ALERTA_SUSPENSAO, LIMITE_ALERTA_MOTOR]
    rw [if_pos hs, if_pos hm]
    rfl
  · rw [checkSystemAlerts_eq (checkSystemAlerts carro).1, checkSystemAlerts_eq carro]
    simp only
    split_ifs <;> simp_all

/-- Instance of C12: a vehicle with suspension 10, temperature 120 and both flags
clear gets both alerts in one call. -/
theorem checkSystemAlerts_behaviour_witness :
    (checkSystemAlerts
      { suspensao := 10, combustivel := 40, motor_temp := 120,
        alerta_suspensao_emitido := 0, alerta_motor_emitido := 0 }).2 =
      [Line.alertaSuspensao 10, Line.alertaMotor 120] :=
  (checkSystemAlerts_behaviour
    { suspensao := 10, combustivel := 40, motor_temp := 120,
      alerta_suspensao_emitido := 0, alerta_motor_emitido := 0 }).2.2.2.2.2.2.1
    ⟨by norm_num, rfl⟩ ⟨by norm_num, rfl⟩


/-! ### The run of the program from `initializeBaja` -/

/-- The suspension after `m` laps, `100 - 2m - 3⌊m/10⌋`, is below 20 exactly from
lap 36 on. -/
theorem suspensao_lt_limite_iff (m : Nat) :
    (100 : ℚ) - 2 * m - 3 * (m / 10 : Nat) < 20 ↔ 36 ≤ m := by
  have h : (100 : ℚ) - 2 * m - 3 * (m / 10 : Nat) < 20 ↔
      ((80 : Nat) : ℚ) < ((2 * m + 3 * (m / 10) : Nat) : ℚ) := by
    push_cast
    constructor <;> intro h <;> linarith
  rw [h, Nat.cast_lt]
  omega

/-- The engine temperature after `m` laps, `80 + m + 5⌊m/10⌋`, is above 115
exactly from lap 26 on. -/
theorem motor_temp_gt_limite_iff (m : Nat) :
    (80 : ℚ) + m + 5 * (m / 10 : Nat) > 115 ↔ 26 ≤ m := by
  have h : (80 : ℚ) + m + 5 * (m / 10 : Nat) > 115 ↔
      ((35 : Nat) : ℚ) < ((m + 5 * (m / 10) : Nat) : ℚ) := by
    push_cast
    constructor <;> intro h <;> linarith
  rw [h, Nat.cast_lt]
  omega

/-- The suspension after `m` laps is `≤ 0` exactly from lap 44 on. -/
theorem suspensao_le_zero_iff (m : Nat) :
    (100 : ℚ) - 2 * m - 3 * (m / 10 : Nat) ≤ 0 ↔ 44 ≤ m := by
  have h : (100 : ℚ) - 2 * m - 3 * (m / 10 : Nat) ≤ 0 ↔
      ((100 : Nat) : ℚ) ≤ ((2 * m + 3 * (m / 10) : Nat) : ℚ) := by
    push_cast
    constructor <;> intro h <;> linarith
  rw [h, Nat.cast_le]
  omega

/-- The fuel after `m` laps, `100 - 1.5m`, is `≤ 0` exactly from lap 67 on. -/
theorem combustivel_le_zero_iff (m : Nat) :
    (100 : ℚ) - 3 / 2 * m ≤ 0 ↔ 67 ≤ m := by
  have h : (100 : ℚ) - 3 / 2 * m ≤ 0 ↔ ((200 : Nat) : ℚ) ≤ ((3 * m : Nat) : ℚ) := by
    push_cast
    constructor <;> intro h <;> linarith
  rw [h, Nat.cast_le]
  omega

/-- The values of the vehicle after `n` laps of the run from `initializeBaja`. -/
theorem afterLaps_initializeBaja_values (n : Nat) :
    (afterLaps initializeBaja n).suspensao = 100 - 2 * n - 3 * (n / 10 : Nat) ∧
    (afterLaps initializeBaja n).combustivel = 100 - 3 / 2 * n ∧
    (afterLaps initializeBaja n).motor_temp = 80 + n + 5 * (n / 10 : Nat) := by
  obtain ⟨h1, h2, h3⟩ := afterLaps_values initializeBaja n
  rw [h1, h2, h3, wearLaps_closed]
  exact ⟨rfl, rfl, rfl⟩

/-- The flags of the vehicle after `n` laps of the run from `initializeBaja`: the
suspension flag is `1` from lap 36 on and the engine flag from lap 26 on, and they
are `0` before. -/
theorem afterLaps_initializeBaja_flags (n : Nat) :
    (afterLaps initializeBaja n).alerta_suspensao_emitido = (if 36 ≤ n then 1 else 0) ∧
    (afterLaps initializeBaja n).alerta_motor_emitido = (if 26 ≤ n then 1 else 0) := by
  induction n with
  | zero => exact ⟨rfl, rfl⟩
  | succ m ih =>
    obtain ⟨ihS, ihM⟩ := ih
    obtain ⟨hs, -, ht⟩ := afterLaps_initializeBaja_values (m + 1)
    have hc : afterLaps initializeBaja (m + 1) =
        (checkSystemAlerts (wearAndPenalty (afterLaps initializeBaja m) ((m : Int) + 1)).1).1 :=
      rfl
    have hs' := hs
    have ht' := ht
    rw [hc, checkSystemAlerts_suspensao] at hs'
    rw [hc, checkSystemAlerts_motor_temp] at ht'
    have hS := suspensao_lt_limite_iff (m + 1)
    have hM := motor_temp_gt_limite_iff (m + 1)
    rw [hc, checkSystemAlerts_eq]
    simp only [wearAndPenalty_flag_suspensao, wearAndPenalty_flag_motor, ihS, ihM, hs', ht',
      LIMITE_ALERTA_SUSPENSAO, LIMITE_ALERTA_MOTOR, hS, hM]
    constructor
    · split_ifs <;> first | rfl | omega
    · split_ifs <;> first | rfl | omega

/-- On the run from `initializeBaja` the failure check holds after lap `n` exactly
when `n ≥ 44`. -/
theorem failureCheck_afterLaps_initializeBaja (n : Nat) :
    failureCheck (afterLaps initializeBaja n) ↔ 44 ≤ n := by
  obtain ⟨hs, hf, -⟩ := afterLaps_initializeBaja_values n
  unfold failureCheck
  rw [hs, hf, suspensao_le_zero_iff, combustivel_le_zero_iff]
  omega

/-- The loop of the program's run stops at lap 44. -/
theorem forLoop_initializeBaja :
    forLoop initializeBaja 1 =
      { carro := afterLaps initializeBaja 44
        saida := lapsOutput initializeBaja 44 ++
          printFinalReport (afterLaps initializeBaja 44) 44 0
        corrida_concluida := 0 } := by
  rcases forLoop_outcome initializeBaja with ⟨k, h1, h100, hfail, hmin, hloop⟩ | ⟨hno, -⟩
  · have hk : 44 ≤ k := (failureCheck_afterLaps_initializeBaja k).mp hfail
    have hk' : k = 44 := by
      by_contra hne
      exact hmin 44 (by decide) (by omega)
        ((failureCheck_afterLaps_initializeBaja 44).mpr (le_refl _))
    subst hk'
    exact hloop
  · exact absurd ((failureCheck_afterLaps_initializeBaja 44).mpr (le_refl _))
      (hno 44 (by decide) (by decide))

/-- The vehicle the program's run ends with. -/
theorem afterLaps_initializeBaja_44 :
    afterLaps initializeBaja 44 =
      { suspensao := 0, combustivel := 34, motor_temp := 144,
        alerta_suspensao_emitido := 1, alerta_motor_emitido := 1 } := by
  obtain ⟨hs, hf, ht⟩ := afterLaps_initializeBaja_values 44
  obtain ⟨hS, hM⟩ := afterLaps_initializeBaja_flags 44
  have e : ∀ c : BajaVehicle, c = ⟨c.suspensao, c.combustivel, c.motor_temp,
      c.alerta_suspensao_emitido, c.alerta_motor_emitido⟩ := fun c => rfl
  rw [e (afterLaps initializeBaja 44), hs, hf, ht, hS, hM]
  norm_num


/-- The lines of a lap that carry a lap number carry the number of that lap. -/
theorem lap_number_of_lapUpdate (carro : BajaVehicle) (volta v : Int) :
    (Line.penalidadeAplicada v ∈ (lapUpdate carro volta).2 → v = volta) ∧
    (Line.relatorioDaVolta v ∈ (lapUpdate carro volta).2 → v = volta) := by
  rw [lapUpdate_saida, checkSystemAlerts_eq]
  simp only [wearAndPenalty, printStatusReport]
  constructor <;> intro h <;> split_ifs at h <;> simp_all

/-- The lines of the laps `1, …, k` that carry a lap number carry a number in
`1..k`. -/
theorem lap_number_of_lapsOutput (carro : BajaVehicle) (k : Nat) (v : Int)
    (h : Line.penalidadeAplicada v ∈ lapsOutput carro k ∨
      Line.relatorioDaVolta v ∈ lapsOutput carro k) :
    1 ≤ v ∧ v ≤ k := by
  induction k with
  | zero => simp [lapsOutput] at h
  | succ m ih =>
    simp only [lapsOutput, List.mem_append] at h
    obtain ⟨hp, hr⟩ := lap_number_of_lapUpdate (afterLaps carro m) ((m : Int) + 1) v
    rcases h with (h | h) | (h | h)
    · have := ih (Or.inl h)
      push_cast
      omega
    · have := hp h
      push_cast
      omega
    · have := ih (Or.inr h)
      push_cast
      omega
    · have := hr h
      push_cast
      omega

/-- The output of the program. -/
theorem main_eq :
    main =
      [Line.inicioDaSimulacao, Line.condicoesIniciais] ++ printStatusReport initializeBaja 0
        ++ lapsOutput initializeBaja 44
        ++ [ Line.cerquilhas, Line.fimDaSimulacao, Line.cerquilhas, Line.falhaCritica 44,
             Line.motivoSuspensao, Line.estadoFinal ]
        ++ printStatusReport (afterLaps initializeBaja 44) 44 := by
  have hs : (afterLaps initializeBaja 44).suspensao ≤ 0 := by
    rw [afterLaps_initializeBaja_44]
  unfold main
  rw [simulate_eq, forLoop_initializeBaja]
  simp [printFinalReport, printOutcome, hs]

/-- C13: the run of the program with the constants of the source does not
complete the 100 laps.  After each lap `n` in `1..44` the vehicle has suspension
`100 - 2n - 3⌊n/10⌋`, fuel `100 - 1.5n` and engine temperature
`80 + n + 5⌊n/10⌋`; the failure check holds on no lap before 44 and holds on lap
44, where the suspension is exactly `0`, the fuel `34` and the temperature `144`;
the loop ends there with `corrida_concluida = 0`, and the output is the opening,
the lines of the laps `1..44` and the final report of a failure at lap 44 with
the reason of the suspension; it has no line of success, no reason of fuel and no
penalty notice or periodic report of a lap after 44. -/
theorem run_fails_at_lap_44 :
    (∀ n : Nat, 1 ≤ n → n ≤ 44 →
      (afterLaps initializeBaja n).suspensao = 100 - 2 * n - 3 * (n / 10 : Nat) ∧
      (afterLaps initializeBaja n).combustivel = 100 - 3 / 2 * n ∧
      (afterLaps initializeBaja n).motor_temp = 80 + n + 5 * (n / 10 : Nat)) ∧
    (∀ n : Nat, 1 ≤ n → n < 44 → ¬ failureCheck (afterLaps initializeBaja n)) ∧
    failureCheck (afterLaps initializeBaja 44) ∧
    (afterLaps initializeBaja 44).suspensao = 0 ∧
    (afterLaps initializeBaja 44).combustivel = 34 ∧
    (afterLaps initializeBaja 44).motor_temp = 144 ∧
    (forLoop initializeBaja 1).carro = afterLaps initializeBaja 44 ∧
    (forLoop initializeBaja 1).corrida_concluida = 0 ∧
    main =
      [Line.inicioDaSimulacao, Line.condicoesIniciais] ++ printStatusReport initializeBaja 0
        ++ lapsOutput initializeBaja 44
        ++ [ Line.cerquilhas, Line.fimDaSimulacao, Line.cerquilhas, Line.falhaCritica 44,
             Line.motivoSuspensao, Line.estadoFinal ]
        ++ printStatusReport (afterLaps initializeBaja 44) 44 ∧
    Line.corridaConcluida ∉ main ∧ Line.motivoCombustivel ∉ main ∧
    (∀ v : Int, 44 < v →
      Line.penalidadeAplicada v ∉ main ∧ Line.relatorioDaVolta v ∉ main) := by
  have h44 := afterLaps_initializeBaja_44
  refine ⟨fun n _ _ => afterLaps_initializeBaja_values n, ?_,
    (failureCheck_afterLaps_initializeBaja 44).mpr (le_refl _), ?_, ?_, ?_, ?_, ?_, main_eq,
    ?_, ?_, ?_⟩
  · intro n _ hn hf
    have := (failureCheck_afterLaps_initializeBaja n).mp hf
    omega
  · rw [h44]
  · rw [h44]
  · rw [h44]
  · rw [forLoop_initializeBaja]
  · rw [forLoop_initializeBaja]
  · have hl : Line.corridaConcluida ∉ lapsOutput initializeBaja 44 := by
      generalize 44 = k
      induction k with
      | zero => simp [lapsOutput]
      | succ m ih =>
        simp only [lapsOutput, List.mem_append, not_or]
        refine ⟨ih, ?_⟩
        rw [lapUpdate_saida, checkSystemAlerts_eq]
        simp only [wearAndPenalty, printStatusReport]
        split_ifs <;> simp
    rw [main_eq]
    simp [printStatusReport, hl]
  · have hl : Line.motivoCombustivel ∉ lapsOutput initializeBaja 44 := by
      generalize 44 = k
      induction k with
      | zero => simp [lapsOutput]
      | succ m ih =>
        simp only [lapsOutput, List.mem_append, not_or]
        refine ⟨ih, ?_⟩
        rw [lapUpdate_saida, checkSystemAlerts_eq]
        simp only [wearAndPenalty, printStatusReport]
        split_ifs <;> simp
    rw [main_eq]
    simp [printStatusReport, hl]
  · intro v hv
    have hp : Line.penalidadeAplicada v ∉ lapsOutput initializeBaja 44 := by
      intro h
      have := lap_number_of_lapsOutput initializeBaja 44 v (Or.inl h)
      omega
    have hr : Line.relatorioDaVolta v ∉ lapsOutput initializeBaja 44 := by
      intro h
      have := lap_number_of_lapsOutput initializeBaja 44 v (Or.inr h)
      omega
    rw [main_eq]
    constructor
    · simp [printStatusReport, hp]
    · simp only [printStatusReport, List.mem_append, List.mem_cons, hr]
      simp
      omega

/-- Instance of C13 at lap 43, the last lap that passes the failure check:
suspension `2`, and the failure check does not hold. -/
theorem run_fails_at_lap_44_witness :
    (afterLaps initializeBaja 43).suspensao = 100 - 2 * (43 : Nat) - 3 * (43 / 10 : Nat) ∧
    ¬ failureCheck (afterLaps initializeBaja 43) :=
  ⟨(run_fails_at_lap_44.1 43 (by decide) (by decide)).1,
    run_fails_at_lap_44.2.1 43 (by decide) (by decide)⟩


/-! ### The alerts of the program's run -/

theorem filter_isAlerta_wearAndPenalty (carro : BajaVehicle) (volta : Int) :
    (wearAndPenalty carro volta).2.filter isAlerta = [] := by
  simp only [wearAndPenalty]
  split_ifs <;> simp [isAlerta, isAlertaSuspensao, isAlertaMotor]

theorem filter_isAlerta_printStatusReport (carro : BajaVehicle) (volta : Int) :
    (printStatusReport carro volta).filter isAlerta = [] := by
  simp [printStatusReport, isAlerta, isAlertaSuspensao, isAlertaMotor]

theorem filter_isAlerta_printFinalReport (carro : BajaVehicle) (volta cc : Int) :
    (printFinalReport carro volta cc).filter isAlerta = [] := by
  simp only [printFinalReport, printOutcome, printStatusReport]
  split_ifs <;> simp [isAlerta, isAlertaSuspensao, isAlertaMotor]

theorem filter_isAlerta_checkSystemAlerts (carro : BajaVehicle) :
    (checkSystemAlerts carro).2.filter isAlerta = (checkSystemAlerts carro).2 := by
  rw [checkSystemAlerts_eq]
  simp only
  split_ifs <;> simp [isAlerta, isAlertaSuspensao, isAlertaMotor]

/-- The alerts among the lines of a lap are the lines of `checkSystemAlerts`. -/
theorem filter_isAlerta_lapUpdate (carro : BajaVehicle) (volta : Int) :
    (lapUpdate carro volta).2.filter isAlerta =
      (checkSystemAlerts (wearAndPenalty carro volta).1).2 := by
  rw [lapUpdate_saida, List.filter_append, List.filter_append,
    filter_isAlerta_wearAndPenalty, filter_isAlerta_checkSystemAlerts]
  split_ifs <;> simp [filter_isAlerta_printStatusReport]

/-- The alerts printed on lap `m + 1` of the run from `initializeBaja`: the engine
alert with value 116 on lap 26, the suspension alert with value 19 on lap 36,
nothing on any other lap. -/
theorem alerts_of_lap_initializeBaja (m : Nat) :
    (lapUpdate (afterLaps initializeBaja m) ((m : Int) + 1)).2.filter isAlerta =
      if m + 1 = 26 then [Line.alertaMotor 116]
      else if m + 1 = 36 then [Line.alertaSuspensao 19]
      else [] := by
  obtain ⟨hs, -, ht⟩ := afterLaps_initializeBaja_values (m + 1)
  obtain ⟨hS, hM⟩ := afterLaps_initializeBaja_flags m
  have hc : afterLaps initializeBaja (m + 1) =
      (checkSystemAlerts (wearAndPenalty (afterLaps initializeBaja m) ((m : Int) + 1)).1).1 :=
    rfl
  rw [hc, checkSystemAlerts_suspensao] at hs
  rw [hc, checkSystemAlerts_motor_temp] at ht
  have hlS := suspensao_lt_limite_iff (m + 1)
  have hlM := motor_temp_gt_limite_iff (m + 1)
  rw [filter_isAlerta_lapUpdate, checkSystemAlerts_eq]
  simp only [wearAndPenalty_flag_suspensao, wearAndPenalty_flag_motor, hS, hM, hs, ht,
    LIMITE_ALERTA_SUSPENSAO, LIMITE_ALERTA_MOTOR, hlS, hlM]
  by_cases h26 : m + 1 = 26
  · have hm : m = 25 := by omega
    subst hm
    norm_num
  · by_cases h36 : m + 1 = 36
    · have hm : m = 35 := by omega
      subst hm
      norm_num
    · rw [if_neg h26, if_neg h36]
      have e1 : ¬ (36 ≤ m + 1 ∧ (if 36 ≤ m then (1 : Int) else 0) = 0) := by
        split_ifs <;> omega
      have e2 : ¬ (26 ≤ m + 1 ∧ (if 26 ≤ m then (1 : Int) else 0) = 0) := by
        split_ifs <;> omega
      rw [if_neg e1, if_neg e2]
      rfl

/-- The alerts among the lines of the laps `1, …, k` of the run from
`initializeBaja`. -/
theorem alerts_of_lapsOutput_initializeBaja (k : Nat) :
    (lapsOutput initializeBaja k).filter isAlerta =
      (if 26 ≤ k then [Line.alertaMotor 116] else []) ++
        (if 36 ≤ k then [Line.alertaSuspensao 19] else []) := by
  induction k with
  | zero => simp [lapsOutput]
  | succ m ih =>
    rw [lapsOutput, List.filter_append, ih, alerts_of_lap_initializeBaja]
    by_cases h26 : m + 1 = 26
    · have hm : m = 25 := by omega
      subst hm
      simp
    · by_cases h36 : m + 1 = 36
      · have hm : m = 35 := by omega
        subst hm
        simp
      · rw [if_neg h26, if_neg h36]
        have a1 : (26 ≤ m + 1) ↔ (26 ≤ m) := by omega
        have a2 : (36 ≤ m + 1) ↔ (36 ≤ m) := by omega
        simp only [a1, a2, List.append_nil]

theorem countP_isAlertaMotor_filter_isAlerta (l : List Line) :
    (l.filter isAlerta).countP isAlertaMotor = l.countP isAlertaMotor := by
  induction l with
  | nil => rfl
  | cons x xs ih =>
    cases x <;> simp [List.filter_cons, List.countP_cons, isAlerta, isAlertaMotor,
      isAlertaSuspensao, ih]

theorem countP_isAlertaSuspensao_filter_isAlerta (l : List Line) :
    (l.filter isAlerta).countP isAlertaSuspensao = l.countP isAlertaSuspensao := by
  induction l with
  | nil => rfl
  | cons x xs ih =>
    cases x <;> simp [List.filter_cons, List.countP_cons, isAlerta, isAlertaMotor,
      isAlertaSuspensao, ih]

/-- C15: in the run of the program both alerts are printed exactly once, before the
failure.  After lap 25 the engine temperature is exactly 115 and lap 25 prints no
alert (the comparison is strict); the engine alert is printed on lap 26 with the
value 116 and the suspension alert on lap 36 with the value 19; no other lap
prints an alert; the alerts of the whole output are these two, in this order, and
they stand before the final report. -/
theorem alerts_of_the_run :
    (afterLaps initializeBaja 25).motor_temp = 115 ∧
    (lapUpdate (afterLaps initializeBaja 24) 25).2.filter isAlerta = [] ∧
    (lapUpdate (afterLaps initializeBaja 25) 26).2.filter isAlerta = [Line.alertaMotor 116] ∧
    (lapUpdate (afterLaps initializeBaja 35) 36).2.filter isAlerta =
      [Line.alertaSuspensao 19] ∧
    (∀ m : Nat, m + 1 ≠ 26 → m + 1 ≠ 36 →
      (lapUpdate (afterLaps initializeBaja m) ((m : Int) + 1)).2.filter isAlerta = []) ∧
    main.filter isAlerta = [Line.alertaMotor 116, Line.alertaSuspensao 19] ∧
    main.countP isAlertaMotor = 1 ∧
    main.countP isAlertaSuspensao = 1 ∧
    (∃ antes : List Line,
      main = antes ++ printFinalReport (afterLaps initializeBaja 44) 44 0 ∧
      antes.filter isAlerta = [Line.alertaMotor 116, Line.alertaSuspensao 19] ∧
      Line.fimDaSimulacao ∉ antes) := by
  have hmain : main =
      ([Line.inicioDaSimulacao, Line.condicoesIniciais] ++ printStatusReport initializeBaja 0
        ++ lapsOutput initializeBaja 44)
        ++ printFinalReport (afterLaps initializeBaja 44) 44 0 := by
    unfold main
    rw [simulate_eq, forLoop_initializeBaja]
    simp
  have hantes : ([Line.inicioDaSimulacao, Line.condicoesIniciais]
      ++ printStatusReport initializeBaja 0
      ++ lapsOutput initializeBaja 44).filter isAlerta =
        [Line.alertaMotor 116, Line.alertaSuspensao 19] := by
    rw [List.filter_append, List.filter_append, filter_isAlerta_printStatusReport,
      alerts_of_lapsOutput_initializeBaja]
    simp [isAlerta, isAlertaSuspensao, isAlertaMotor]
  have hfilter : main.filter isAlerta = [Line.alertaMotor 116, Line.alertaSuspensao 19] := by
    rw [hmain, List.filter_append, hantes, filter_isAlerta_printFinalReport]
    rfl
  refine ⟨?_, ?_, ?_, ?_, ?_, hfilter, ?_, ?_, _, hmain, hantes, ?_⟩
  · rw [(afterLaps_initializeBaja_values 25).2.2]
    norm_num
  · have h := alerts_of_lap_initializeBaja 24
    simpa using h
  · have h := alerts_of_lap_initializeBaja 25
    simpa using h
  · have h := alerts_of_lap_initializeBaja 35
    simpa using h
  · intro m h26 h36
    rw [alerts_of_lap_initializeBaja, if_neg h26, if_neg h36]
  · rw [← countP_isAlertaMotor_filter_isAlerta, hfilter]
    simp [isAlertaMotor]
  · rw [← countP_isAlertaSuspensao_filter_isAlerta, hfilter]
    simp [isAlertaSuspensao]
  · have h0 := fimDaSimulacao_not_mem_printStatusReport initializeBaja 0
    have hl : Line.fimDaSimulacao ∉ lapsOutput initializeBaja 44 :=
      List.count_eq_zero.mp (count_fimDaSimulacao_lapsOutput initializeBaja 44)
    simp [h0, hl]

/-- Instance of C15 at lap 30: a lap other than 26 and 36 prints no alert. -/
theorem alerts_of_the_run_witness :
    (lapUpdate (afterLaps initializeBaja 29) (((29 : Nat) : Int) + 1)).2.filter isAlerta = [] :=
  alerts_of_the_run.2.2.2.2.1 29 (by decide) (by decide)

/-! ### The flags agree with the thresholds along the program's run -/

/-- One lap lowers the suspension and raises the engine temperature. -/
theorem lapUpdate_monotone (carro : BajaVehicle) (volta : Int) :
    (lapUpdate carro volta).1.suspensao < carro.suspensao ∧
    carro.motor_temp < (lapUpdate carro volta).1.motor_temp := by
  rw [lapUpdate_carro, checkSystemAlerts_suspensao, checkSystemAlerts_motor_temp]
  simp only [wearAndPenalty]
  split_ifs <;>
    simp only [applyPeriodicPenalty, runLap, DESGASTE_SUSPENSAO_POR_VOLTA,
      PENALIDADE_SUSPENSAO, AUMENTO_TEMP_MOTOR_POR_VOLTA, PENALIDADE_TEMPERATURA_MOTOR] <;>
    constructor <;> linarith

/-- C17: along the run from `initializeBaja`, in the vehicle left by
`checkSystemAlerts` on lap `n`, for every `n` and so for each processed lap
`1..44`, the suspension flag is set if and only if the suspension is below 20 and
the engine flag is set if and only if the engine temperature is above 115; from
one lap to the next the suspension falls and the temperature rises. -/
theorem flags_agree_with_thresholds (n : Nat) :
    ((afterLaps initializeBaja n).alerta_suspensao_emitido ≠ 0 ↔
      (afterLaps initializeBaja n).suspensao < 20) ∧
    ((afterLaps initializeBaja n).alerta_motor_emitido ≠ 0 ↔
      (afterLaps initializeBaja n).motor_temp > 115) ∧
    (afterLaps initializeBaja (n + 1)).suspensao < (afterLaps initializeBaja n).suspensao ∧
    (afterLaps initializeBaja n).motor_temp < (afterLaps initializeBaja (n + 1)).motor_temp := by
  obtain ⟨hs, -, ht⟩ := afterLaps_initializeBaja_values n
  obtain ⟨hS, hM⟩ := afterLaps_initializeBaja_flags n
  have hmono := lapUpdate_monotone (afterLaps initializeBaja n) ((n : Int) + 1)
  refine ⟨?_, ?_, hmono.1, hmono.2⟩
  · rw [hS, hs, suspensao_lt_limite_iff]
    split_ifs with h <;> simp [h]
  · rw [hM, ht, motor_temp_gt_limite_iff]
    split_ifs with h <;> simp [h]

/-- Instance of C17 on lap 36, the lap of the suspension alert: the suspension
flag is set and the suspension, 19, is below 20. -/
theorem flags_agree_with_thresholds_witness :
    (afterLaps initializeBaja 36).alerta_suspensao_emitido ≠ 0 ∧
    (afterLaps initializeBaja 36).suspensao < 20 := by
  have h := (flags_agree_with_thresholds 36).1
  have hf : (afterLaps initializeBaja 36).alerta_suspensao_emitido ≠ 0 := by
    rw [(afterLaps_initializeBaja_flags 36).1]
    decide
  exact ⟨hf, h.mp hf⟩


/-! ### The periodic report of a failing lap -/

/-- C14: for every vehicle and every lap number that is a multiple of 20, if the
failure check holds on that lap, then the output of the pass through the loop
body contains the periodic status report of the lap before the final report (the
banner of the final report does not occur before it), and the status report that
ends the final report is that same report: same lap number, same values. -/
theorem periodic_report_before_final_report (carro : BajaVehicle) (volta : Int)
    (h20 : (20 : Int) ∣ volta) (hfail : failureCheck (lapUpdate carro volta).1) :
    ∃ antes : List Line,
      (loopBody carro volta).saida =
        antes ++ printStatusReport (loopBody carro volta).carro volta
          ++ ([Line.cerquilhas, Line.fimDaSimulacao, Line.cerquilhas]
            ++ printOutcome (loopBody carro volta).carro volta 0 ++ [Line.estadoFinal])
          ++ printStatusReport (loopBody carro volta).carro volta ∧
      Line.fimDaSimulacao ∉ antes ∧
      (loopBody carro volta).carro = (lapUpdate carro volta).1 ∧
      (loopBody carro volta).corrida_concluida = 0 := by
  have hmod : volta % INTERVALO_RELATORIO = 0 := by
    unfold INTERVALO_RELATORIO
    omega
  refine ⟨(wearAndPenalty carro volta).2 ++ (checkSystemAlerts (wearAndPenalty carro volta).1).2,
    ?_, ?_, loopBody_carro carro volta, ?_⟩
  · rw [loopBody_saida, if_pos hfail, loopBody_carro, lapUpdate_saida, if_pos hmod]
    simp [printFinalReport]
  · have h1 := fimDaSimulacao_not_mem_wearAndPenalty carro volta
    have h2 := fimDaSimulacao_not_mem_checkSystemAlerts (wearAndPenalty carro volta).1
    simp [h1, h2]
  · rw [loopBody_corrida_concluida, if_pos hfail]

/-- Witness of C14: the vehicle `carroQuaseSemSuspensao` (suspension `2`) on lap
20; the wear and the penalty bring its suspension to `-3`. -/
theorem periodic_report_before_final_report_witness :
    (20 : Int) ∣ 20 ∧ failureCheck (lapUpdate carroQuaseSemSuspensao 20).1 ∧
    ∃ antes : List Line,
      (loopBody carroQuaseSemSuspensao 20).saida =
        antes ++ printStatusReport (loopBody carroQuaseSemSuspensao 20).carro 20
          ++ ([Line.cerquilhas, Line.fimDaSimulacao, Line.cerquilhas]
            ++ printOutcome (loopBody carroQuaseSemSuspensao 20).carro 20 0
            ++ [Line.estadoFinal])
          ++ printStatusReport (loopBody carroQuaseSemSuspensao 20).carro 20 ∧
      Line.fimDaSimulacao ∉ antes ∧
      (loopBody carroQuaseSemSuspensao 20).carro = (lapUpdate carroQuaseSemSuspensao 20).1 ∧
      (loopBody carroQuaseSemSuspensao 20).corrida_concluida = 0 := by
  have hf : failureCheck (lapUpdate carroQuaseSemSuspensao 20).1 := by
    left
    rw [lapUpdate_carro, checkSystemAlerts_suspensao]
    norm_num [carroQuaseSemSuspensao, wearAndPenalty, runLap, applyPeriodicPenalty,
      INTERVALO_PENALIDADE, DESGASTE_SUSPENSAO_POR_VOLTA, PENALIDADE_SUSPENSAO]
  exact ⟨dvd_refl 20, hf,
    periodic_report_before_final_report carroQuaseSemSuspensao 20 (dvd_refl 20) hf⟩

/-! ### A failure report names its cause -/

theorem countP_isMotivo_printStatusReport (carro : BajaVehicle) (volta : Int) :
    (printStatusReport carro volta).countP isMotivo = 0 := by
  simp [printStatusReport, isMotivo]

theorem countP_isMotivo_lapUpdate (carro : BajaVehicle) (volta : Int) :
    (lapUpdate carro volta).2.countP isMotivo = 0 := by
  rw [lapUpdate_saida, checkSystemAlerts_eq]
  simp only [wearAndPenalty, printStatusReport]
  split_ifs <;> simp [isMotivo]

theorem countP_isMotivo_lapsOutput (carro : BajaVehicle) (k : Nat) :
    (lapsOutput carro k).countP isMotivo = 0 := by
  induction k with
  | zero => simp [lapsOutput]
  | succ m ih =>
    rw [lapsOutput, List.countP_append, ih, countP_isMotivo_lapUpdate]

/-- The reason lines of a final report: one for a failure report of a vehicle
that trips the failure check, none for a failure report of a vehicle that does
not, none for a report of success. -/
theorem countP_isMotivo_printFinalReport (carro : BajaVehicle) (volta cc : Int) :
    (printFinalReport carro volta cc).countP isMotivo =
      if cc = 0 ∧ failureCheck carro then 1 else 0 := by
  have h := countP_isMotivo_printStatusReport carro volta
  by_cases hcc : cc = 0
  · subst hcc
    by_cases hs : carro.suspensao ≤ 0
    · simp [printFinalReport, printOutcome, failureCheck, List.countP_append, h, hs, isMotivo]
    · by_cases hc : carro.combustivel ≤ 0
      · simp [printFinalReport, printOutcome, failureCheck, List.countP_append, h, hs, hc,
          isMotivo]
      · simp [printFinalReport, printOutcome, failureCheck, List.countP_append, h, hs, hc,
          isMotivo]
  · simp [printFinalReport, printOutcome, List.countP_append, h, hcc, isMotivo]

/-- C16: a failure report of the main loop names a cause.  `printFinalReport` with
`corrida_concluida = 0` prints exactly one reason line when suspension `≤ 0` or
fuel `≤ 0`, and no reason line when both are `> 0`.  A pass through the loop
body prints the final report only with `corrida_concluida = 0` and a vehicle with
suspension `≤ 0` or fuel `≤ 0`; and for every starting vehicle, when the loop
ends with `corrida_concluida = 0` the vehicle it leaves has suspension `≤ 0` or
fuel `≤ 0` and the output of the run has exactly one reason line, while a run
that ends with `corrida_concluida ≠ 0` has none. -/
theorem failure_report_names_cause :
    (∀ (carro : BajaVehicle) (volta : Int),
      (carro.suspensao ≤ 0 ∨ carro.combustivel ≤ 0) →
      (printFinalReport carro volta 0).countP isMotivo = 1) ∧
    (∀ (carro : BajaVehicle) (volta : Int),
      0 < carro.suspensao → 0 < carro.combustivel →
      (printFinalReport carro volta 0).countP isMotivo = 0) ∧
    (∀ (carro : BajaVehicle) (volta : Int),
      ((loopBody carro volta).corrida_concluida = 0 →
        ((loopBody carro volta).carro.suspensao ≤ 0 ∨
          (loopBody carro volta).carro.combustivel ≤ 0) ∧
        (loopBody carro volta).saida =
          (lapUpdate carro volta).2 ++ printFinalReport (loopBody carro volta).carro volta 0) ∧
      ((loopBody carro volta).corrida_concluida ≠ 0 →
        (loopBody carro volta).saida = (lapUpdate carro volta).2 ∧
        Line.fimDaSimulacao ∉ (loopBody carro volta).saida)) ∧
    (∀ carro : BajaVehicle,
      ((forLoop carro 1).corrida_concluida = 0 →
        ((forLoop carro 1).carro.suspensao ≤ 0 ∨ (forLoop carro 1).carro.combustivel ≤ 0) ∧
        (simulate carro).countP isMotivo = 1) ∧
      ((forLoop carro 1).corrida_concluida ≠ 0 →
        (simulate carro).countP isMotivo = 0)) := by
  refine ⟨?_, ?_, ?_, ?_⟩
  · intro carro volta h
    have hf : failureCheck carro := h
    rw [countP_isMotivo_printFinalReport, if_pos ⟨rfl, hf⟩]
  · intro carro volta hs hc
    have hf : ¬ failureCheck carro := by
      intro h
      rcases h with h | h <;> linarith
    rw [countP_isMotivo_printFinalReport, if_neg (fun h => hf h.2)]
  · intro carro volta
    by_cases hf : failureCheck (lapUpdate carro volta).1
    · rw [loopBody_eq_of_failure carro volta hf]
      exact ⟨fun _ => ⟨hf, rfl⟩, fun h => absurd rfl h⟩
    · rw [loopBody_eq_of_not_failure carro volta hf]
      refine ⟨fun h => absurd h (by simp), fun _ => ⟨rfl, ?_⟩⟩
      exact fimDaSimulacao_not_mem_lapUpdate carro volta
  · intro carro
    have h0 := countP_isMotivo_printStatusReport carro 0
    rcases forLoop_outcome carro with ⟨k, h1, h100, hfail, hmin, hloop⟩ | ⟨hno, hloop⟩
    · rw [simulate_eq, hloop]
      refine ⟨fun _ => ⟨hfail, ?_⟩, fun h => absurd rfl h⟩
      simp [List.countP_append, h0, countP_isMotivo_lapsOutput,
        countP_isMotivo_printFinalReport, hfail, isMotivo]
    · rw [simulate_eq, hloop]
      refine ⟨fun h => absurd h (by simp), fun _ => ?_⟩
      simp [List.countP_append, h0, countP_isMotivo_lapsOutput,
        countP_isMotivo_printFinalReport, isMotivo]

/-- Instance of C16: the failure report of a vehicle out of fuel with suspension
left has one reason line. -/
theorem failure_report_names_cause_witness :
    (printFinalReport
      { suspensao := 10, combustivel := 0, motor_temp := 150,
        alerta_suspensao_emitido := 1, alerta_motor_emitido := 1 } 67 0).countP isMotivo = 1 :=
  failure_report_names_cause.1 _ 67 (Or.inr (le_refl 0))


/-! ### Machine arithmetic: where it is exact -/

theorem roundHalfEven_intCast (z : Int) : roundHalfEven (z : ℚ) = z := by
  simp [roundHalfEven]

/-- A number `m * 2 ^ e` whose integer `m` fits in `p` bits is not changed by
rounding to `p` bits. -/
theorem roundToPrecision_of_dyadic (p : Nat) (m e : Int) (hm : |m| < 2 ^ p) :
    roundToPrecision p ((m : ℚ) * 2 ^ e) = (m : ℚ) * 2 ^ e := by
  unfold roundToPrecision
  by_cases h0 : (m : ℚ) * 2 ^ e = 0
  · rw [if_pos h0, h0]
  · rw [if_neg h0]
    have h2e : (0 : ℚ) < 2 ^ e := zpow_pos (by norm_num) e
    have habs : |(m : ℚ) * 2 ^ e| = |(m : ℚ)| * 2 ^ e := by
      rw [abs_mul, abs_of_pos h2e]
    have hpos : 0 < |(m : ℚ) * 2 ^ e| := abs_pos.mpr h0
    have hmq : |(m : ℚ)| < 2 ^ p := by
      have h : ((|m| : Int) : ℚ) < ((2 ^ p : Int) : ℚ) := Int.cast_lt.mpr hm
      simpa [Int.cast_abs] using h
    have hlt : |(m : ℚ) * 2 ^ e| < ((2 : Nat) : ℚ) ^ ((p : Int) + e) := by
      rw [habs, zpow_add₀ (by norm_num), zpow_natCast]
      exact mul_lt_mul_of_pos_right (by simpa using hmq) (by simpa using h2e)
    have hlog : Int.log 2 |(m : ℚ) * 2 ^ e| < (p : Int) + e :=
      (Int.lt_zpow_iff_log_lt (by norm_num) hpos).mp hlt
    have hE : ulpExponent p ((m : ℚ) * 2 ^ e) ≤ e := by
      unfold ulpExponent
      omega
    generalize ulpExponent p ((m : ℚ) * 2 ^ e) = E at hE
    obtain ⟨d, rfl⟩ : ∃ d : Nat, e = E + d := ⟨(e - E).toNat, by omega⟩
    have h2E : (2 : ℚ) ^ E ≠ 0 := zpow_ne_zero E (by norm_num)
    have hq : (m : ℚ) * 2 ^ (E + (d : Int)) / 2 ^ E = ((m * 2 ^ d : Int) : ℚ) := by
      rw [zpow_add₀ (by norm_num), zpow_natCast]
      push_cast
      field_simp
      ring
    rw [hq, roundHalfEven_intCast, zpow_add₀ (by norm_num), zpow_natCast]
    push_cast
    ring

/-- A multiple of `1/2` by an integer of magnitude below `2 ^ 24` is a `float`
and a `double`: rounding leaves it as it is. -/
theorem round_half_integer (k : Int) (hk : |k| < 2 ^ 24) :
    roundFloat ((k : ℚ) / 2) = (k : ℚ) / 2 ∧ roundDouble ((k : ℚ) / 2) = (k : ℚ) / 2 := by
  have e : (k : ℚ) / 2 = (k : ℚ) * 2 ^ (-1 : Int) := by
    rw [zpow_neg_one]
    rfl
  constructor
  · unfold roundFloat
    rw [e]
    exact roundToPrecision_of_dyadic 24 k (-1) hk
  · unfold roundDouble
    rw [e]
    exact roundToPrecision_of_dyadic 53 k (-1) (lt_trans hk (by norm_num))

/-- The integer behind a value of `isExactHalf`. -/
theorem isExactHalf_iff (q : ℚ) :
    isExactHalf q ↔ ∃ k : Int, q = (k : ℚ) / 2 ∧ |k| ≤ 2 ^ 23 := by
  unfold isExactHalf
  constructor
  · rintro ⟨hden, habs⟩
    refine ⟨(2 * q).num, ?_, ?_⟩
    · have h : ((2 * q).num : ℚ) = 2 * q := Rat.coe_int_num_of_den_eq_one hden
      rw [h]
      ring
    · have h : ((2 * q).num : ℚ) = 2 * q := Rat.coe_int_num_of_den_eq_one hden
      have h2 : |(((2 * q).num : Int) : ℚ)| ≤ ((2 ^ 23 : Int) : ℚ) := by
        rw [h, abs_mul]
        norm_num
        linarith
      rw [← Int.cast_abs] at h2
      exact Int.cast_le.mp h2
  · rintro ⟨k, rfl, hk⟩
    constructor
    · have h : 2 * ((k : ℚ) / 2) = ((k : Int) : ℚ) := by ring
      rw [h]
      exact Rat.den_intCast k
    · have h2 : ((|k| : Int) : ℚ) ≤ ((2 ^ 23 : Int) : ℚ) := Int.cast_le.mpr hk
      rw [Int.cast_abs] at h2
      rw [abs_div]
      norm_num at h2 ⊢
      linarith

/-! ### Machine arithmetic: evaluation -/

theorem roundHalfEven_down (q : ℚ) (f : Int) (h1 : (f : ℚ) ≤ q) (h2 : q - f < 1 / 2) :
    roundHalfEven q = f := by
  have hf : ⌊q⌋ = f := Int.floor_eq_iff.mpr ⟨h1, by linarith⟩
  unfold roundHalfEven
  rw [hf, if_pos h2]

theorem roundHalfEven_up (q : ℚ) (f : Int) (h1 : 1 / 2 < q - f) (h2 : q < (f : ℚ) + 1) :
    roundHalfEven q = f + 1 := by
  have hf : ⌊q⌋ = f := Int.floor_eq_iff.mpr ⟨by linarith, h2⟩
  unfold roundHalfEven
  rw [hf, if_neg (by linarith), if_pos h1]

/-- Rounding of `q` with `2 ^ e ≤ |q| < 2 ^ (e + 1)`: the unit in the last place is
`2 ^ (e - (p - 1))`. -/
theorem roundToPrecision_eval (p : Nat) (q : ℚ) (e z : Int) (h1 : (2 : ℚ) ^ e ≤ |q|)
    (h2 : |q| < (2 : ℚ) ^ (e + 1))
    (hz : roundHalfEven (q / 2 ^ (e - ((p : Int) - 1))) = z) :
    roundToPrecision p q = (z : ℚ) * 2 ^ (e - ((p : Int) - 1)) := by
  have hpos : 0 < |q| := lt_of_lt_of_le (zpow_pos (by norm_num) e) h1
  have hq : q ≠ 0 := abs_pos.mp hpos
  have hle : e ≤ Int.log 2 |q| :=
    (Int.zpow_le_iff_le_log (by norm_num) hpos).mp (by simpa using h1)
  have hlt : Int.log 2 |q| < e + 1 :=
    (Int.lt_zpow_iff_log_lt (by norm_num) hpos).mp (by simpa using h2)
  have hlog : Int.log 2 |q| = e := by omega
  unfold roundToPrecision ulpExponent
  rw [if_neg hq, hlog, hz]

/-- The rounding of the machine at the vehicle `carroUmDecimo`: what `runLap`
leaves of the suspension and of the fuel, and what the penalty leaves of that
suspension. -/
theorem roundFloat_umDecimo :
    roundFloat (umDecimo - 2) = -15938355 / 8388608 ∧
    roundFloat (umDecimo - 3 / 2) = -11744051 / 8388608 ∧
    roundFloat (-15938355 / 8388608 - 3) = -10276045 / 2097152 := by
  refine ⟨?_, ?_, ?_⟩
  · unfold roundFloat
    rw [roundToPrecision_eval 24 (umDecimo - 2) 0 (-15938355)]
    · norm_num
    · norm_num [umDecimo, abs_of_neg]
    · norm_num [umDecimo, abs_of_neg]
    · have h := roundHalfEven_up (-255013683 / 16) (-15938356) (by norm_num) (by norm_num)
      norm_num [umDecimo] at h ⊢
      exact h
  · unfold roundFloat
    rw [roundToPrecision_eval 24 (umDecimo - 3 / 2) 0 (-11744051)]
    · norm_num
    · norm_num [umDecimo, abs_of_neg]
    · norm_num [umDecimo, abs_of_neg]
    · have h := roundHalfEven_up (-187904819 / 16) (-11744052) (by norm_num) (by norm_num)
      norm_num [umDecimo] at h ⊢
      exact h
  · unfold roundFloat
    rw [roundToPrecision_eval 24 (-15938355 / 8388608 - 3) 2 (-10276045)]
    · norm_num
    · norm_num [abs_of_neg]
    · norm_num [abs_of_neg]
    · have h := roundHalfEven_down (-41104179 / 4) (-10276045) (by norm_num) (by norm_num)
      norm_num at h ⊢
      exact h

/-! ### Machine arithmetic and exact arithmetic agree on the exact range -/

/-- Adding a multiple of `1/2` of magnitude at most 6 to a value of `isExactHalf`
is exact in `float` and in `double`. -/
theorem round_isExactHalf_add (q : ℚ) (c : Int) (hq : isExactHalf q) (hc : |c| ≤ 12) :
    roundFloat (q + (c : ℚ) / 2) = q + (c : ℚ) / 2 ∧
    roundDouble (q + (c : ℚ) / 2) = q + (c : ℚ) / 2 := by
  obtain ⟨k, rfl, hk⟩ := (isExactHalf_iff q).mp hq
  have e : (k : ℚ) / 2 + (c : ℚ) / 2 = ((k + c : Int) : ℚ) / 2 := by
    push_cast
    ring
  rw [e]
  apply round_half_integer
  have h1 := abs_add k c
  have h2 : (2 : Int) ^ 23 + 12 < 2 ^ 24 := by norm_num
  omega

theorem runLapFloat_eq (carro : BajaVehicle) (hs : isExactHalf carro.suspensao)
    (hc : isExactHalf carro.combustivel) (ht : isExactHalf carro.motor_temp) :
    runLapFloat carro = runLap carro := by
  have h1 := (round_isExactHalf_add carro.suspensao (-4) hs (by norm_num)).1
  have h2 := (round_isExactHalf_add carro.combustivel (-3) hc (by norm_num)).1
  have h3 := (round_isExactHalf_add carro.motor_temp 2 ht (by norm_num)).2
  have e1 : carro.suspensao + ((-4 : Int) : ℚ) / 2 = carro.suspensao - 2 := by
    push_cast
    ring
  have e2 : carro.combustivel + ((-3 : Int) : ℚ) / 2 = carro.combustivel - 3 / 2 := by
    push_cast
    ring
  have e3 : carro.motor_temp + ((2 : Int) : ℚ) / 2 = carro.motor_temp + 1 := by
    push_cast
    ring
  rw [e1] at h1
  rw [e2] at h2
  rw [e3] at h3
  simp only [runLapFloat, runLap, DESGASTE_SUSPENSAO_POR_VOLTA, CONSUMO_COMBUSTIVEL_POR_VOLTA,
    AUMENTO_TEMP_MOTOR_POR_VOLTA, h1, h2, h3]

theorem applyPeriodicPenaltyFloat_runLap_eq (carro : BajaVehicle)
    (hs : isExactHalf carro.suspensao) (ht : isExactHalf carro.motor_temp) :
    applyPeriodicPenaltyFloat (runLap carro) = applyPeriodicPenalty (runLap carro) := by
  have h1 := (round_isExactHalf_add carro.suspensao (-10) hs (by norm_num)).1
  have h3 := (round_isExactHalf_add carro.motor_temp 12 ht (by norm_num)).2
  have e1 : carro.suspensao + ((-10 : Int) : ℚ) / 2 = carro.suspensao - 2 - 3 := by
    push_cast
    ring
  have e3 : carro.motor_temp + ((12 : Int) : ℚ) / 2 = carro.motor_temp + 1 + 5 := by
    push_cast
    ring
  rw [e1] at h1
  rw [e3] at h3
  simp only [applyPeriodicPenaltyFloat, applyPeriodicPenalty, runLap,
    DESGASTE_SUSPENSAO_POR_VOLTA, AUMENTO_TEMP_MOTOR_POR_VOLTA, PENALIDADE_SUSPENSAO,
    PENALIDADE_TEMPERATURA_MOTOR, h1, h3]

/-- On a vehicle whose three values are in the exact range, one pass through the
loop body with the rounding of the machine is the pass in exact arithmetic. -/
theorem loopBodyFloat_eq (carro : BajaVehicle) (volta : Int)
    (hs : isExactHalf carro.suspensao) (hc : isExactHalf carro.combustivel)
    (ht : isExactHalf carro.motor_temp) :
    wearAndPenaltyFloat carro volta = wearAndPenalty carro volta ∧
    lapUpdateFloat carro volta = lapUpdate carro volta ∧
    loopBodyFloat carro volta = loopBody carro volta := by
  have hw : wearAndPenaltyFloat carro volta = wearAndPenalty carro volta := by
    simp only [wearAndPenaltyFloat, wearAndPenalty, runLapFloat_eq carro hs hc ht,
      applyPeriodicPenaltyFloat_runLap_eq carro hs ht]
  have hl : lapUpdateFloat carro volta = lapUpdate carro volta := by
    simp only [lapUpdateFloat, lapUpdate, hw]
  refine ⟨hw, hl, ?_⟩
  simp only [loopBodyFloat, loopBody, hl]

theorem loopBodyFloat_carro (carro : BajaVehicle) (volta : Int) :
    (loopBodyFloat carro volta).carro =
      (checkSystemAlerts (wearAndPenaltyFloat carro volta).1).1 := by
  simp only [loopBodyFloat]
  split_ifs <;> rfl

theorem loopBodyFloat_saida (carro : BajaVehicle) (volta : Int) :
    (loopBodyFloat carro volta).saida =
      (lapUpdateFloat carro volta).2 ++
        (if failureCheck (lapUpdateFloat carro volta).1 then
          printFinalReport (lapUpdateFloat carro volta).1 volta 0 else []) := by
  simp only [loopBodyFloat, failureCheck]
  split_ifs <;> simp

/-- C1, as the code has it: in one pass through the loop body on a lap `n` in
`1..100`, from every vehicle, the penalty is applied and its notice printed
exactly when `n` is a multiple of 10.  The fuel ends at the `float` nearest to
the old value less 1.5, on every lap; the suspension at the `float` nearest to
the old value less 2 and, on a lap with penalty, from there at the `float`
nearest to 3 less; the engine temperature at the `double` nearest to the old
value plus 1 and, on a lap with penalty, from there at the `double` nearest to 5
more.  When the three values on entry are multiples of `1/2` of magnitude at most
`2 ^ 22` nothing is rounded: the fuel falls by exactly 1.5, the wear alone takes
exactly 2 and adds exactly 1, the penalty takes exactly 3 more and adds exactly 5
more, and the pass is the pass of exact arithmetic. -/
theorem penalty_exactly_on_multiples_of_ten (carro : BajaVehicle) (n : Int)
    (_h1 : 1 ≤ n) (_h100 : n ≤ 100) :
    (Line.penalidadeAplicada n ∈ (loopBodyFloat carro n).saida ↔ (10 : Int) ∣ n) ∧
    ((10 : Int) ∣ n →
      (loopBodyFloat carro n).carro.suspensao =
        roundFloat ((runLapFloat carro).suspensao - 3) ∧
      (loopBodyFloat carro n).carro.motor_temp =
        roundDouble ((runLapFloat carro).motor_temp + 5)) ∧
    (¬ (10 : Int) ∣ n →
      (loopBodyFloat carro n).carro.suspensao = (runLapFloat carro).suspensao ∧
      (loopBodyFloat carro n).carro.motor_temp = (runLapFloat carro).motor_temp) ∧
    (runLapFloat carro).suspensao = roundFloat (carro.suspensao - 2) ∧
    (runLapFloat carro).motor_temp = roundDouble (carro.motor_temp + 1) ∧
    (loopBodyFloat carro n).carro.combustivel = roundFloat (carro.combustivel - 3 / 2) ∧
    (isExactHalf carro.suspensao → isExactHalf carro.combustivel →
      isExactHalf carro.motor_temp →
      ((10 : Int) ∣ n →
        (loopBodyFloat carro n).carro.suspensao = (runLapFloat carro).suspensao - 3 ∧
        (loopBodyFloat carro n).carro.motor_temp = (runLapFloat carro).motor_temp + 5) ∧
      (runLapFloat carro).suspensao = carro.suspensao - 2 ∧
      (runLapFloat carro).motor_temp = carro.motor_temp + 1 ∧
      (loopBodyFloat carro n).carro.combustivel = carro.combustivel - 3 / 2 ∧
      loopBodyFloat carro n = loopBody carro n) := by
  have hdvd : (10 : Int) ∣ n ↔ n % INTERVALO_PENALIDADE = 0 := by
    unfold INTERVALO_PENALIDADE
    omega
  have hA := penalidade_not_mem_checkSystemAlerts
  have hS := penalidade_not_mem_printStatusReport
  have hF := penalidade_not_mem_printFinalReport
  refine ⟨?_, ?_, ?_, rfl, rfl, ?_, ?_⟩
  · rw [hdvd, loopBodyFloat_saida]
    simp only [lapUpdateFloat, wearAndPenaltyFloat]
    split_ifs <;> simp_all
  · intro h
    rw [hdvd] at h
    rw [loopBodyFloat_carro, checkSystemAlerts_suspensao, checkSystemAlerts_motor_temp]
    simp [wearAndPenaltyFloat, h, applyPeriodicPenaltyFloat, PENALIDADE_SUSPENSAO,
      PENALIDADE_TEMPERATURA_MOTOR]
  · intro h
    rw [hdvd] at h
    rw [loopBodyFloat_carro, checkSystemAlerts_suspensao, checkSystemAlerts_motor_temp]
    simp [wearAndPenaltyFloat, h]
  · rw [loopBodyFloat_carro, checkSystemAlerts_combustivel]
    unfold wearAndPenaltyFloat
    split_ifs <;>
      simp [applyPeriodicPenaltyFloat, runLapFloat, CONSUMO_COMBUSTIVEL_POR_VOLTA]
  · intro hs hc ht
    have hrun := runLapFloat_eq carro hs hc ht
    have hbody := (loopBodyFloat_eq carro n hs hc ht).2.2
    have hexact := loopBody_penalty_exact carro n
    rw [hbody, hrun]
    exact ⟨hexact.2.1, hexact.2.2.2.1, hexact.2.2.2.2.1, hexact.2.2.2.2.2, rfl⟩

/-- Witness of C1: lap 10 from the vehicle of `initializeBaja`, whose values 100,
100 and 80 are in the exact range; the suspension ends exactly 3 below what
`runLap` alone gives. -/
theorem penalty_exactly_on_multiples_of_ten_witness :
    (1 : Int) ≤ 10 ∧ (10 : Int) ≤ 100 ∧
    isExactHalf initializeBaja.suspensao ∧ isExactHalf initializeBaja.combustivel ∧
    isExactHalf initializeBaja.motor_temp ∧
    (loopBodyFloat initializeBaja 10).carro.suspensao =
      (runLapFloat initializeBaja).suspensao - 3 := by
  have hs : isExactHalf initializeBaja.suspensao :=
    (isExactHalf_iff _).mpr ⟨200, by norm_num [initializeBaja, SUSPENSAO_INICIAL], by norm_num⟩
  have hc : isExactHalf initializeBaja.combustivel :=
    (isExactHalf_iff _).mpr ⟨200, by norm_num [initializeBaja, COMBUSTIVEL_INICIAL], by norm_num⟩
  have ht : isExactHalf initializeBaja.motor_temp :=
    (isExactHalf_iff _).mpr
      ⟨160, by norm_num [initializeBaja, TEMPERATURA_INICIAL_MOTOR], by norm_num⟩
  exact ⟨by decide, by decide, hs, hc, ht,
    (((penalty_exactly_on_multiples_of_ten initializeBaja 10 (by decide) (by decide)).2.2.2.2.2.2
      hs hc ht).1 (by decide)).1⟩

/-- Counterexample to C1 as it is written, "for every vehicle state": from the
vehicle `carroUmDecimo`, whose suspension and fuel are the `float` `0.1f`, on lap
10 the wear alone leaves the suspension at `-15938355 / 2 ^ 23`, which is not the
old value less 2; the penalty leaves it at `-10276045 / 2 ^ 21`, which is not 3
below the wear alone; and the fuel ends at `-11744051 / 2 ^ 23`, which is not
the old value less 1.5. -/
theorem penalty_exactly_on_multiples_of_ten_counterexample :
    (runLapFloat carroUmDecimo).suspensao = -15938355 / 8388608 ∧
    (runLapFloat carroUmDecimo).suspensao ≠ carroUmDecimo.suspensao - 2 ∧
    (loopBodyFloat carroUmDecimo 10).carro.suspensao = -10276045 / 2097152 ∧
    (loopBodyFloat carroUmDecimo 10).carro.suspensao ≠
      (runLapFloat carroUmDecimo).suspensao - 3 ∧
    (loopBodyFloat carroUmDecimo 10).carro.combustivel = -11744051 / 8388608 ∧
    (loopBodyFloat carroUmDecimo 10).carro.combustivel ≠ carroUmDecimo.combustivel - 3 / 2 := by
  obtain ⟨r1, r2, r3⟩ := roundFloat_umDecimo
  have hrun : (runLapFloat carroUmDecimo).suspensao = -15938355 / 8388608 := by
    simp only [runLapFloat, carroUmDecimo, DESGASTE_SUSPENSAO_POR_VOLTA]
    exact r1
  have hpen : (loopBodyFloat carroUmDecimo 10).carro.suspensao = -10276045 / 2097152 := by
    rw [loopBodyFloat_carro, checkSystemAlerts_suspensao]
    simp only [wearAndPenaltyFloat, INTERVALO_PENALIDADE, applyPeriodicPenaltyFloat,
      PENALIDADE_SUSPENSAO]
    rw [if_pos (by decide), hrun]
    exact r3
  have hfuel : (loopBodyFloat carroUmDecimo 10).carro.combustivel = -11744051 / 8388608 := by
    rw [loopBodyFloat_carro, checkSystemAlerts_combustivel]
    simp only [wearAndPenaltyFloat, INTERVALO_PENALIDADE, applyPeriodicPenaltyFloat]
    rw [if_pos (by decide)]
    simp only [runLapFloat, carroUmDecimo, CONSUMO_COMBUSTIVEL_POR_VOLTA]
    exact r2
  refine ⟨hrun, ?_, hpen, ?_, hfuel, ?_⟩
  · rw [hrun]
    norm_num [carroUmDecimo, umDecimo]
  · rw [hpen, hrun]
    norm_num
  · rw [hfuel]
    norm_num [carroUmDecimo, umDecimo]

/-! ### `printStatusReport` only reads -/

/-- C11: `printStatusReport` is a pure read.  Run statement by statement from any
state, its body leaves the vehicle, and so every field of it, as it was, and adds
to the output the six lines of the report of that vehicle and lap number.  A
second call right after the first, with the same lap number, again leaves the
vehicle as it was and adds the same six lines as the first call. -/
theorem printStatusReport_pure_read (e : Estado) (volta : Int) :
    (printStatusReportBody volta e).carro = e.carro ∧
    (printStatusReportBody volta e).saida = e.saida ++ printStatusReport e.carro volta ∧
    (printStatusReportBody volta (printStatusReportBody volta e)).carro = e.carro ∧
    (printStatusReportBody volta (printStatusReportBody volta e)).saida =
      (printStatusReportBody volta e).saida ++ printStatusReport e.carro volta := by
  have h1 : ∀ x : Estado, (printStatusReportBody volta x).carro = x.carro := by
    intro x
    simp only [printStatusReportBody, printf]
  have h2 : ∀ x : Estado,
      (printStatusReportBody volta x).saida = x.saida ++ printStatusReport x.carro volta := by
    intro x
    simp [printStatusReportBody, printf, printStatusReport]
  refine ⟨h1 e, h2 e, ?_, ?_⟩
  · rw [h1, h1]
  · rw [h2 (printStatusReportBody volta e), h1]

/-- Instance of C11: two reports of lap 0 in a row from the vehicle of
`initializeBaja` and an empty output. -/
theorem printStatusReport_pure_read_witness :
    (printStatusReportBody 0 (printStatusReportBody 0 ⟨initializeBaja, []⟩)).carro =
      initializeBaja ∧
    (printStatusReportBody 0 (printStatusReportBody 0 ⟨initializeBaja, []⟩)).saida =
      printStatusReport initializeBaja 0 ++ printStatusReport initializeBaja 0 := by
  have h := printStatusReport_pure_read ⟨initializeBaja, []⟩ 0
  refine ⟨h.2.2.1, ?_⟩
  rw [h.2.2.2, h.2.1]
  rfl

/-- The three values of the vehicle after `n ≤ 100` laps of the run from
`initializeBaja` are in the exact range. -/
theorem afterLaps_initializeBaja_isExactHalf (n : Nat) (hn : n ≤ 100) :
    isExactHalf (afterLaps initializeBaja n).suspensao ∧
    isExactHalf (afterLaps initializeBaja n).combustivel ∧
    isExactHalf (afterLaps initializeBaja n).motor_temp := by
  obtain ⟨hs, hc, ht⟩ := afterLaps_initializeBaja_values n
  rw [hs, hc, ht]
  refine ⟨(isExactHalf_iff _).mpr ⟨200 - 4 * n - 6 * (n / 10 : Nat), ?_, ?_⟩,
    (isExactHalf_iff _).mpr ⟨200 - 3 * n, ?_, ?_⟩,
    (isExactHalf_iff _).mpr ⟨160 + 2 * n + 10 * (n / 10 : Nat), ?_, ?_⟩⟩
  · simp only [Int.cast_sub, Int.cast_add, Int.cast_mul, Int.cast_natCast, Int.cast_ofNat]
    ring
  · rw [abs_le]
    constructor <;> omega
  · simp only [Int.cast_sub, Int.cast_add, Int.cast_mul, Int.cast_natCast, Int.cast_ofNat]
    ring
  · rw [abs_le]
    constructor <;> omega
  · simp only [Int.cast_sub, Int.cast_add, Int.cast_mul, Int.cast_natCast, Int.cast_ofNat]
    ring
  · rw [abs_le]
    constructor <;> omega

/-- No lap of the program's run rounds: on each of the laps `1..100` from
`initializeBaja` the pass through the loop body with the rounding of the machine
is the pass in exact arithmetic. -/
theorem loopBodyFloat_eq_on_run (n : Nat) (hn : n ≤ 100) :
    loopBodyFloat (afterLaps initializeBaja n) ((n : Int) + 1) =
      loopBody (afterLaps initializeBaja n) ((n : Int) + 1) := by
  obtain ⟨hs, hc, ht⟩ := afterLaps_initializeBaja_isExactHalf n hn
  exact (loopBodyFloat_eq _ _ hs hc ht).2.2

end Baja
